import Mathlib

/-!
# zap-shift-server: parcel lifecycle, payments, tracking and status counts

A shallow embedding of the request handlers of `src/index.js`.

* A stored document is a list of `(field, value)` pairs; a collection is a list
  of documents in insertion order; the five collections form the `Store`.
* The MongoDB driver calls the handlers make (`updateOne` with `$set`,
  `insertOne`, `findOne`, `deleteOne`, `find` + `sort`, `$match`/`$group`) are
  modelled on collections, with the driver's result counts.
* Everything a handler reads from its environment (the clock, the identifiers
  the driver generates) is an explicit `Env` argument.
* The Firebase call that verifies a token is outside the repository; the
  middleware `verifyFBToken` takes it as an argument.
* A handler maps a request and a store to the reply it sends (or none, when
  the `async` callback rejects outside any `try`, so that the handler itself
  sends nothing) and the store it leaves.

Field values are the scalar JSON/BSON values; arrays and sub-documents are not
part of the modelled fragment, and numbers are integers.
-/

namespace ZapShift

/-! ## Documents and values -/

/-- Scalar BSON values. -/
inductive Value where
  | null
  | bool (b : Bool)
  | num (n : Int)
  | str (s : String)
  | date (ms : Nat)
  | oid (id : Nat)
  deriving DecidableEq, Repr, Inhabited

/-- Stored document or JSON request body: fields in order. -/
abbrev Doc := List (String × Value)

/-- Collection: its documents in insertion (natural) order. -/
abbrev Coll := List Doc

/-- Value of field `k` (JavaScript `d[k]`, `none` for `undefined`). -/
def Doc.field : Doc → String → Option Value
  | [], _ => none
  | (k', v) :: rest, k => if k' = k then some v else Doc.field rest k

/-- Assignment `d[k] = v`, also the effect of `$set: { k: v }` on one field:
an existing field keeps its place, a new one is added at the end. -/
def Doc.setField : Doc → String → Value → Doc
  | [], k, v => [(k, v)]
  | (k', v') :: rest, k, v =>
    if k' = k then (k, v) :: rest else (k', v') :: Doc.setField rest k v

/-- Effect of `$set: upd` on a document, field by field. -/
def Doc.applySet (d : Doc) (upd : Doc) : Doc :=
  upd.foldl (fun acc kv => Doc.setField acc kv.1 kv.2) d

/-- The driver serialises an `undefined` property as BSON null
(`ignoreUndefined` is off by default). -/
def orNull : Option Value → Value
  | some v => v
  | none => Value.null

/-- JavaScript truthiness of a possibly `undefined` JSON value. -/
def truthy : Option Value → Bool
  | none => false
  | some Value.null => false
  | some (Value.bool b) => b
  | some (Value.num n) => n != 0
  | some (Value.str s) => s != ""
  | some (Value.date _) => true
  | some (Value.oid _) => true

/-! ## ObjectId construction -/

/-- What a rejected driver call throws. -/
inductive DriverError where
  | bsonError
  | duplicateKey
  deriving DecidableEq, Repr, Inhabited

/-- Value of one hexadecimal digit. -/
def hexDigit (c : Char) : Option Nat :=
  if 48 ≤ c.toNat ∧ c.toNat ≤ 57 then some (c.toNat - 48)
  else if 97 ≤ c.toNat ∧ c.toNat ≤ 102 then some (c.toNat - 87)
  else if 65 ≤ c.toNat ∧ c.toNat ≤ 70 then some (c.toNat - 55)
  else none

/-- Value of a string of hexadecimal digits, `none` when a character is not one. -/
def hexValue : List Char → Nat → Option Nat
  | [], acc => some acc
  | c :: cs, acc =>
    match hexDigit c with
    | some n => hexValue cs (16 * acc + n)
    | none => none

/-- The identifier a string converts to: `new ObjectId(s)` accepts a string of
24 hexadecimal digits and throws on any other string (the constructor of
version 6 of the driver's `bson` library). -/
def ObjectId.parse (s : String) : Option Nat :=
  if s.data.length = 24 then hexValue s.data 0 else none

/-- The constructor `new ObjectId(x)` on a path parameter or a JSON body
property. `undefined`, `null` and a number make the driver generate an
identifier (`gen`); a string is converted; anything else throws. -/
def ObjectId.new (gen : Nat) : Option Value → Except DriverError Nat
  | none => .ok gen
  | some Value.null => .ok gen
  | some (Value.num _) => .ok gen
  | some (Value.str s) =>
    match ObjectId.parse s with
    | some i => .ok i
    | none => .error DriverError.bsonError
  | some (Value.oid i) => .ok i
  | some (Value.bool _) => .error DriverError.bsonError
  | some (Value.date _) => .error DriverError.bsonError

/-- The filter `{ _id: new ObjectId(..) }`. -/
def idIs (i : Nat) (d : Doc) : Bool :=
  decide (Doc.field d "_id" = some (Value.oid i))

/-- The filter `{ k: v }` on one field with a scalar value; a null value also
matches a document without the field. -/
def fieldIs (k : String) (v : Value) (d : Doc) : Bool :=
  decide (Doc.field d k = some v) || (decide (v = Value.null) && decide (Doc.field d k = none))

/-! ## Collection operations -/

/-- The counts of the driver's `UpdateResult`. -/
structure UpdateResult where
  matchedCount : Nat
  modifiedCount : Nat
  deriving DecidableEq, Repr, Inhabited

/-- The call `updateOne(filter, { $set: upd })`: the first document the filter
matches gets the fields of `upd`; `modifiedCount` is 1 only when that changed
the document. -/
def Coll.updateOne (filter : Doc → Bool) (upd : Doc) : Coll → Coll × UpdateResult
  | [] => ([], ⟨0, 0⟩)
  | d :: rest =>
    if filter d then
      (Doc.applySet d upd :: rest, ⟨1, if Doc.applySet d upd = d then 0 else 1⟩)
    else
      ((d :: (Coll.updateOne filter upd rest).1), (Coll.updateOne filter upd rest).2)

/-- The call `findOne(filter)`: the first matching document. -/
def Coll.findOne (filter : Doc → Bool) : Coll → Option Doc
  | [] => none
  | d :: rest => if filter d then some d else Coll.findOne filter rest

/-- The call `deleteOne(filter)`: the first matching document is removed. -/
def Coll.deleteOne (filter : Doc → Bool) : Coll → Coll × Nat
  | [] => ([], 0)
  | d :: rest =>
    if filter d then (rest, 1)
    else ((d :: (Coll.deleteOne filter rest).1), (Coll.deleteOne filter rest).2)

/-- The document without its field `k`. -/
def Doc.erase (d : Doc) (k : String) : Doc :=
  d.filter (fun kv => kv.1 != k)

/-- The call `insertOne(doc)`. The driver gives a document whose `_id` is
missing or null the identifier it generates (`fresh`), `doc._id == null`
covering both; any other `_id` is kept. The server stores `_id` as the first
field, and its unique index on `_id` rejects a value already stored. Returns
the new collection and the `insertedId`. -/
def Coll.insertOne (fresh : Nat) (doc : Doc) (c : Coll) :
    Except DriverError (Coll × Value) :=
  let key : Value :=
    match Doc.field doc "_id" with
    | none => Value.oid fresh
    | some Value.null => Value.oid fresh
    | some v => v
  let stored : Doc := ("_id", key) :: Doc.erase doc "_id"
  if c.any (fun d => decide (Doc.field d "_id" = some key)) then
    .error DriverError.duplicateKey
  else
    .ok (c ++ [stored], key)

/-! ## Store, environment, requests and replies -/

/-- The five collections of `parcelDB`. -/
structure Store where
  parcelCollection : Coll
  paymentsCollection : Coll
  usersCollection : Coll
  ridersCollection : Coll
  trackingsCollection : Coll
  deriving DecidableEq, Repr, Inhabited

/-- What a handler reads from outside the request and the store. -/
structure Env where
  /-- Reading of `new Date()`, in milliseconds. -/
  now : Nat
  /-- Reading of `new Date().toISOString()`. -/
  nowIso : String
  /-- Identifier `new ObjectId(undefined)` generates. -/
  genId : Nat
  /-- Identifier `insertOne` gives a document whose `_id` is missing or null. -/
  insertId : Nat
  deriving DecidableEq, Repr, Inhabited

/-- The request: its path parameter and its JSON body. -/
structure Request where
  param : String
  body : Doc
  deriving DecidableEq, Repr, Inhabited

/-- Reply bodies the handlers send. -/
inductive Body where
  /-- The object `{ message }`. -/
  | message (m : String)
  /-- The object `{ success: false, message }`. -/
  | failure (m : String)
  /-- The object `{ message, error: error.message }`. -/
  | serverError (m : String) (e : DriverError)
  /-- A stored document. -/
  | doc (d : Doc)
  /-- An array of stored documents. -/
  | docs (ds : List Doc)
  /-- An `UpdateResult`. -/
  | update (r : UpdateResult)
  /-- The object `{ parcelResult, riderResult }`. -/
  | assigned (parcelResult riderResult : UpdateResult)
  /-- The object `{ success: true, parcelUpdated, riderUpdated }`. -/
  | updated (parcelUpdated riderUpdated : Nat)
  /-- A `DeleteResult` with its `deletedCount`. -/
  | deleted (deletedCount : Nat)
  /-- The object `{ message, insertedId }`. -/
  | recorded (m : String) (insertedId : Value)
  /-- The object `{ success: true, insertedId }`. -/
  | logged (insertedId : Value)
  /-- An `InsertOneResult` with its `insertedId`. -/
  | inserted (insertedId : Value)
  /-- The array of `{ count, status }` objects of a status aggregation. -/
  | counts (entries : List (Value × Nat))
  deriving DecidableEq, Repr, Inhabited

/-- Reply with its HTTP status. -/
structure Response where
  status : Nat
  body : Body
  deriving DecidableEq, Repr, Inhabited

/-- Result of running a handler: the reply it sends (`none` when the callback
rejects outside any `try`, so the handler sends nothing) and the store left
behind. -/
structure Outcome where
  reply : Option Response
  store : Store
  deriving DecidableEq, Repr, Inhabited

/-! ## POST /payments -/

/-- Handler of `app.post("/payments")`. -/
def postPayments (env : Env) (req : Request) (s : Store) : Outcome :=
  let parcelId := Doc.field req.body "parcelId"
  let email := Doc.field req.body "email"
  let amount := Doc.field req.body "amount"
  let paymentMethod := Doc.field req.body "paymentMethod"
  let transactionId := Doc.field req.body "transactionId"
  let failed (e : DriverError) (s' : Store) : Outcome :=
    ⟨some ⟨500, Body.serverError "Server error while processing payment" e⟩, s'⟩
  match ObjectId.new env.genId parcelId with
  | .error e => failed e s
  | .ok pid =>
    let updated := Coll.updateOne (idIs pid) [("payment_status", Value.str "paid")]
      s.parcelCollection
    let s1 : Store := { s with parcelCollection := updated.1 }
    if updated.2.modifiedCount = 0 then
      ⟨some ⟨404, Body.message "Parcel not found or already paid"⟩, s1⟩
    else
      let paymentDoc : Doc :=
        [("parcelId", orNull parcelId), ("email", orNull email),
         ("amount", orNull amount), ("paymentMethod", orNull paymentMethod),
         ("transactionId", orNull transactionId),
         ("paid_at_string", Value.str env.nowIso), ("paid_at", Value.date env.now)]
      match Coll.insertOne env.insertId paymentDoc s1.paymentsCollection with
      | .error e => failed e s1
      | .ok (payments, insertedId) =>
        ⟨some ⟨201, Body.recorded "Payment recorded and marked as paid!" insertedId⟩,
          { s1 with paymentsCollection := payments }⟩

/-! ## Parcel lifecycle handlers -/

/-- Handler of `app.get("/parcels/:id")`. -/
def getParcel (env : Env) (req : Request) (s : Store) : Outcome :=
  match ObjectId.new env.genId (some (Value.str req.param)) with
  | .error _ => ⟨some ⟨500, Body.message "Failed to fetch payment"⟩, s⟩
  | .ok pid =>
    match Coll.findOne (idIs pid) s.parcelCollection with
    | none => ⟨some ⟨404, Body.message "Parcel not found"⟩, s⟩
    | some parcel => ⟨some ⟨200, Body.doc parcel⟩, s⟩

/-- Handler of `app.delete("/parcels/:id")`. -/
def deleteParcel (env : Env) (req : Request) (s : Store) : Outcome :=
  match ObjectId.new env.genId (some (Value.str req.param)) with
  | .error _ => ⟨some ⟨500, Body.message "Failed to delete parcel"⟩, s⟩
  | .ok pid =>
    let result := Coll.deleteOne (idIs pid) s.parcelCollection
    ⟨some ⟨200, Body.deleted result.2⟩, { s with parcelCollection := result.1 }⟩

/-- Handler of `app.patch("/parcels/:id/assign")`. -/
def patchAssign (env : Env) (req : Request) (s : Store) : Outcome :=
  let riderId := Doc.field req.body "riderId"
  let riderName := Doc.field req.body "riderName"
  let assigned_rider_email := Doc.field req.body "assigned_rider_email"
  let failed (s' : Store) : Outcome := ⟨some ⟨500, Body.failure "Failed to assign rider"⟩, s'⟩
  match ObjectId.new env.genId (some (Value.str req.param)) with
  | .error _ => failed s
  | .ok pid =>
    let parcelResult := Coll.updateOne (idIs pid)
      [("delivery_status", Value.str "in_transit"),
       ("assigned_rider_id", orNull riderId),
       ("assigned_rider_name", orNull riderName),
       ("assigned_rider_email", orNull assigned_rider_email)] s.parcelCollection
    let s1 : Store := { s with parcelCollection := parcelResult.1 }
    match ObjectId.new env.genId riderId with
    | .error _ => failed s1
    | .ok rid =>
      let riderResult := Coll.updateOne (idIs rid)
        [("work_status", Value.str "in_delivery")] s1.ridersCollection
      ⟨some ⟨200, Body.assigned parcelResult.2 riderResult.2⟩,
        { s1 with ridersCollection := riderResult.1 }⟩

/-- Common body of the deliver and pickup handlers, which differ in the two
status values they write only. -/
def patchStatus (deliveryStatus workStatus : String) (env : Env) (req : Request)
    (s : Store) : Outcome :=
  let riderId := Doc.field req.body "riderId"
  let failed (s' : Store) : Outcome := ⟨some ⟨500, Body.message "Failed to deliver parcel"⟩, s'⟩
  if !truthy (some (Value.str req.param)) || !truthy riderId then
    ⟨some ⟨400, Body.message "ParcelId and RiderId required"⟩, s⟩
  else
    match ObjectId.new env.genId (some (Value.str req.param)) with
    | .error _ => failed s
    | .ok pid =>
      let parcelResult := Coll.updateOne (idIs pid)
        [("delivery_status", Value.str deliveryStatus)] s.parcelCollection
      let s1 : Store := { s with parcelCollection := parcelResult.1 }
      match ObjectId.new env.genId riderId with
      | .error _ => failed s1
      | .ok rid =>
        let riderResult := Coll.updateOne (idIs rid)
          [("work_status", Value.str workStatus)] s1.ridersCollection
        ⟨some ⟨200, Body.updated parcelResult.2.modifiedCount riderResult.2.modifiedCount⟩,
          { s1 with ridersCollection := riderResult.1 }⟩

/-- Handler of `app.patch("/parcels/:parcelId/deliver")`. -/
def patchDeliver (env : Env) (req : Request) (s : Store) : Outcome :=
  patchStatus "delivered" "free" env req s

/-- Handler of `app.patch("/parcels/:parcelId/pickup")`. -/
def patchPickup (env : Env) (req : Request) (s : Store) : Outcome :=
  patchStatus "picked_up" "busy" env req s

/-- Handler of `app.patch("/parcels/:id/cashout")`; it has no `try`. -/
def patchCashout (env : Env) (req : Request) (s : Store) : Outcome :=
  match ObjectId.new env.genId (some (Value.str req.param)) with
  | .error _ => ⟨none, s⟩
  | .ok pid =>
    let result := Coll.updateOne (idIs pid)
      [("cashout_status", Value.str "cashed_out"), ("cashed_out_at", Value.date env.now)]
      s.parcelCollection
    ⟨some ⟨200, Body.update result.2⟩, { s with parcelCollection := result.1 }⟩

/-- Handler of `app.patch("/riders/:id/status")`; the query is built before
the `try`. -/
def patchRiderStatus (env : Env) (req : Request) (s : Store) : Outcome :=
  let status := Doc.field req.body "status"
  let email := Doc.field req.body "email"
  let work_status := Doc.field req.body "work_status"
  match ObjectId.new env.genId (some (Value.str req.param)) with
  | .error _ => ⟨none, s⟩
  | .ok rid =>
    let result := Coll.updateOne (idIs rid)
      [("status", orNull status), ("work_status", orNull work_status)] s.ridersCollection
    let s1 : Store := { s with ridersCollection := result.1 }
    if status = some (Value.str "active") then
      let roleResult := Coll.updateOne (fieldIs "email" (orNull email))
        [("role", Value.str "rider")] s1.usersCollection
      ⟨some ⟨200, Body.update result.2⟩, { s1 with usersCollection := roleResult.1 }⟩
    else
      ⟨some ⟨200, Body.update result.2⟩, s1⟩

/-! ## Status aggregation -/

/-- One more document in the group of `v`: its count goes up, or the group is
opened with count 1. -/
def bump (v : Value) : List (Value × Nat) → List (Value × Nat)
  | [] => [(v, 1)]
  | (w, n) :: rest => if w = v then (w, n + 1) :: rest else (w, n) :: bump v rest

/-- The stages `$group: { _id: "$field", count: { $sum: 1 } }` and `$project`:
a document without the field is grouped under null. -/
def groupCount (field : String) (c : Coll) : List (Value × Nat) :=
  c.foldl (fun acc d => bump (orNull (Doc.field d field)) acc) []

/-- Handler of `app.get("/parcels/delivery/status-count")`. -/
def getDeliveryStatusCount (s : Store) : Outcome :=
  ⟨some ⟨200, Body.counts (groupCount "delivery_status" s.parcelCollection)⟩, s⟩

/-- Handler of `app.get("/parcels/pay/payment-count/:email")`. -/
def getPaymentCount (req : Request) (s : Store) : Outcome :=
  ⟨some ⟨200, Body.counts (groupCount "payment_status"
    (s.parcelCollection.filter (fieldIs "created_by" (Value.str req.param))))⟩, s⟩

/-- Handler of `app.get("/parcels/delivery/status-count/:email")`. -/
def getRiderDeliveryStatusCount (req : Request) (s : Store) : Outcome :=
  ⟨some ⟨200, Body.counts (groupCount "delivery_status"
    (s.parcelCollection.filter (fieldIs "assigned_rider_email" (Value.str req.param))))⟩, s⟩

/-! ## Tracking log -/

/-- Rank of a value's type in the BSON comparison order. -/
def Value.rank : Value → Nat
  | Value.null => 0
  | Value.num _ => 1
  | Value.str _ => 2
  | Value.oid _ => 3
  | Value.bool _ => 4
  | Value.date _ => 5

/-- BSON comparison `a ≤ b` of two values. -/
def Value.le : Value → Value → Bool
  | Value.num a, Value.num b => decide (a ≤ b)
  | Value.str a, Value.str b => decide (a ≤ b)
  | Value.oid a, Value.oid b => decide (a ≤ b)
  | Value.bool a, Value.bool b => !a || b
  | Value.date a, Value.date b => decide (a ≤ b)
  | a, b => decide (a.rank ≤ b.rank)

/-- Insertion of a document into a list sorted ascending on `key`, before the
first document that does not sort below it. -/
def insertAsc (key : String) (x : Doc) : List Doc → List Doc
  | [] => [x]
  | y :: ys =>
    if Value.le (orNull (Doc.field x key)) (orNull (Doc.field y key)) then x :: y :: ys
    else y :: insertAsc key x ys

/-- The cursor call `.sort({ key: 1 })`: ascending on `key`, a missing field
sorting as null, documents with equal keys staying in natural order. -/
def sortAsc (key : String) : List Doc → List Doc
  | [] => []
  | x :: xs => insertAsc key x (sortAsc key xs)

/-- Handler of `app.post("/trackings")`. -/
def postTrackings (env : Env) (req : Request) (s : Store) : Outcome :=
  let update := req.body
  if !truthy (Doc.field update "tracking_id") || !truthy (Doc.field update "status") then
    ⟨some ⟨400, Body.message "tracking_id and status are required"⟩, s⟩
  else
    let update := Doc.setField update "timestamp" (Value.date env.now)
    match Coll.insertOne env.insertId update s.trackingsCollection with
    | .error _ => ⟨some ⟨500, Body.message "Failed to log tracking"⟩, s⟩
    | .ok (trackings, insertedId) =>
      ⟨some ⟨201, Body.logged insertedId⟩, { s with trackingsCollection := trackings }⟩

/-- Handler of `app.get("/trackings/:trackingId")`. -/
def getTrackings (req : Request) (s : Store) : Outcome :=
  let updates := sortAsc "Timestamp"
    (s.trackingsCollection.filter (fieldIs "tracking_id" (Value.str req.param)))
  ⟨some ⟨200, Body.docs updates⟩, s⟩


/-! ## Concrete inputs -/

/-- An unpaid parcel awaiting assignment. -/
def demoParcel : Doc :=
  [("_id", Value.oid 1), ("created_by", Value.str "ann@example.com"),
   ("delivery_status", Value.str "pending"), ("payment_status", Value.str "unpaid")]

/-- A delivered parcel that has been paid. -/
def demoPaidParcel : Doc :=
  [("_id", Value.oid 3), ("created_by", Value.str "bob@example.com"),
   ("delivery_status", Value.str "delivered"), ("payment_status", Value.str "paid")]

/-- A rider who is free. -/
def demoRider : Doc :=
  [("_id", Value.oid 2), ("name", Value.str "Rafi"), ("work_status", Value.str "free")]

/-- A store with two parcels and one rider. -/
def demoStore : Store :=
  ⟨[demoParcel, demoPaidParcel], [], [], [demoRider], []⟩

def demoEnv : Env := ⟨1700000000000, "2023-11-14T22:13:20.000Z", 4096, 4097⟩

/-- The same environment one second later. -/
def demoEnvLater : Env := ⟨1700000001000, "2023-11-14T22:13:21.000Z", 4098, 4099⟩

def demoParcelId : String := "000000000000000000000001"

def demoRiderId : String := "000000000000000000000002"

def demoPaidParcelId : String := "000000000000000000000003"

def demoUnknownId : String := "0000000000000000000000ff"

/-- The body of a payment request for the parcel `parcelId`. -/
def demoPayment (parcelId : String) : Request :=
  ⟨"", [("parcelId", Value.str parcelId), ("email", Value.str "ann@example.com"),
        ("amount", Value.num 120), ("paymentMethod", Value.str "card"),
        ("transactionId", Value.str "txn_1")]⟩

/-- The request of a rider action on the parcel `parcelId`. -/
def demoRiderAction (parcelId : String) : Request :=
  ⟨parcelId, [("riderId", Value.str demoRiderId), ("riderName", Value.str "Rafi"),
              ("assigned_rider_email", Value.str "rafi@example.com")]⟩

/-! ## Delivery lifecycle -/

/-- The operations that act on a parcel's lifecycle. -/
inductive LifecycleOp where
  | assign
  | pickup
  | deliver
  | cashout
  | recordPayment
  deriving DecidableEq, Repr, Inhabited

/-- The handler an operation runs. -/
def LifecycleOp.run : LifecycleOp → Env → Request → Store → Outcome
  | LifecycleOp.assign => patchAssign
  | LifecycleOp.pickup => patchPickup
  | LifecycleOp.deliver => patchDeliver
  | LifecycleOp.cashout => patchCashout
  | LifecycleOp.recordPayment => postPayments

/-- The `delivery_status` an operation writes, if it writes one. -/
def LifecycleOp.target : LifecycleOp → Option String
  | LifecycleOp.assign => some "in_transit"
  | LifecycleOp.pickup => some "picked_up"
  | LifecycleOp.deliver => some "delivered"
  | LifecycleOp.cashout => none
  | LifecycleOp.recordPayment => none

/-- Position of a delivery status in the order
pending < in_transit < picked_up < delivered; other values have none. -/
def statusRank : Option Value → Option Nat
  | some (Value.str st) =>
    if st = "pending" then some 0
    else if st = "in_transit" then some 1
    else if st = "picked_up" then some 2
    else if st = "delivered" then some 3
    else none
  | _ => none

/-- The status `after` is `before` or a later state of the order. -/
def notEarlier (before after : Option Value) : Bool :=
  decide (after = before) ||
    match statusRank before, statusRank after with
    | some a, some b => decide (a < b)
    | _, _ => false

/-- The `delivery_status` of the parcel at position `i` of the collection. -/
def deliveryStatusAt (s : Store) (i : Nat) : Option Value :=
  (s.parcelCollection[i]?).bind (fun d => Doc.field d "delivery_status")

/-! ## Describing what a write touched -/

/-- The collection `coll'` is `coll` with `d`, its first document matching
`f`, replaced in place by `d'`, which still matches `f`; every other document
is as it was. -/
def Coll.ReplacesFirst (f : Doc → Bool) (d d' : Doc) (coll coll' : Coll) : Prop :=
  ∃ pre post, coll = pre ++ d :: post ∧ coll' = pre ++ d' :: post ∧
    (∀ x ∈ pre, f x = false) ∧ f d = true ∧ f d' = true

/-- Between `s` and `s'` only the parcel with id `pid` (from `p` to `p'`) and
the rider with id `rid` (from `r` to `r'`) differ. -/
def Store.ChangesOnly (s s' : Store) (pid : Nat) (p p' : Doc) (rid : Nat) (r r' : Doc) :
    Prop :=
  Coll.ReplacesFirst (idIs pid) p p' s.parcelCollection s'.parcelCollection ∧
    Coll.ReplacesFirst (idIs rid) r r' s.ridersCollection s'.ridersCollection ∧
    s'.paymentsCollection = s.paymentsCollection ∧
    s'.usersCollection = s.usersCollection ∧
    s'.trackingsCollection = s.trackingsCollection

/-! ## Reference group-count -/

/-- Number of documents of `coll` whose `field` has the value `v`, a document
without the field counting under null. -/
def refCount (field : String) (coll : Coll) (v : Value) : Nat :=
  coll.countP (fun d => decide (orNull (Doc.field d field) = v))

/-- The list `res` is the group-count of `coll` on `field`: no status occurs
twice, and `(v, n)` is an entry exactly when `n` documents have the status
`v` and `n` is not zero. -/
def IsGroupCount (field : String) (coll : Coll) (res : List (Value × Nat)) : Prop :=
  (res.map Prod.fst).Nodup ∧ ∀ v n, (v, n) ∈ res ↔ (0 < n ∧ n = refCount field coll v)

/-- Count recorded for `v` in a list of groups, 0 when `v` has no group. -/
def lookupCount : List (Value × Nat) → Value → Nat
  | [], _ => 0
  | (w, n) :: rest, v => if w = v then n else lookupCount rest v

/-- A tracking event for shipment "TRK-1" whose body also carries a
`Timestamp` property. -/
def demoTrack (status : String) (stamp : Int) : Request :=
  ⟨"", [("tracking_id", Value.str "TRK-1"), ("status", Value.str status),
        ("Timestamp", Value.num stamp)]⟩

/-! ## GET /payments -/

/-- The part of a verified Firebase token the handlers read: its `email`
claim, which a token may lack. -/
structure DecodedToken where
  email : Option String
  deriving DecidableEq, Repr, Inhabited

/-- The request of `GET /payments`: the `authorization` header and the
`email` query parameter, each possibly missing. -/
structure PaymentsRequest where
  authorization : Option String
  email : Option String
  deriving DecidableEq, Repr, Inhabited

deriving instance DecidableEq for Except

/-- The expression `authHeader.split(" ")[1]` on a header that starts with
"Bearer ": the text after that first blank, up to the next one. -/
def bearerToken (authHeader : String) : String :=
  String.mk ((authHeader.data.drop 7).takeWhile (fun ch => ch != ' '))

/-- The middleware `verifyFBToken`. The call `admin.auth().verifyIdToken` is
the argument `verifyIdToken`, `none` standing for a rejected token. It passes
the decoded token on, or answers 401 or 403 itself. -/
def verifyFBToken (verifyIdToken : String → Option DecodedToken)
    (authorization : Option String) : Except Response DecodedToken :=
  match authorization with
  | none => .error ⟨401, Body.message "Unauthorized"⟩
  | some authHeader =>
    if authHeader = "" ∨ ¬ ("Bearer ".data.isPrefixOf authHeader.data = true) then
      .error ⟨401, Body.message "Unauthorized"⟩
    else
      match verifyIdToken (bearerToken authHeader) with
      | none => .error ⟨403, Body.message "Forbidden"⟩
      | some decodedUser => .ok decodedUser

/-- Insertion of a document into a list sorted descending on `key`, before the
first document that does not sort above it. -/
def insertDesc (key : String) (x : Doc) : List Doc → List Doc
  | [] => [x]
  | y :: ys =>
    if Value.le (orNull (Doc.field y key)) (orNull (Doc.field x key)) then x :: y :: ys
    else y :: insertDesc key x ys

/-- The option `sort: { key: -1 }`: descending on `key`, a missing field
sorting as null, documents with equal keys staying in natural order. -/
def sortDesc (key : String) : List Doc → List Doc
  | [] => []
  | x :: xs => insertDesc key x (sortDesc key xs)

/-- The query of `GET /payments`: `{ email: userEmail }` for a truthy
`userEmail`, else `{}`. -/
def paymentsQuery : Option String → Doc → Bool
  | none => fun _ => true
  | some userEmail =>
    if userEmail = "" then fun _ => true else fieldIs "email" (Value.str userEmail)

/-- Handler of `app.get("/payments")` behind `verifyFBToken`. -/
def getPayments (verifyIdToken : String → Option DecodedToken) (req : PaymentsRequest)
    (s : Store) : Outcome :=
  match verifyFBToken verifyIdToken req.authorization with
  | .error refusal => ⟨some refusal, s⟩
  | .ok decoded =>
    let userEmail := req.email
    if decoded.email ≠ userEmail then
      ⟨some ⟨403, Body.message "Forbidden Entry"⟩, s⟩
    else
      let payments := sortDesc "paid_at" (s.paymentsCollection.filter (paymentsQuery userEmail))
      ⟨some ⟨200, Body.docs payments⟩, s⟩

/-- A token verifier that knows two tokens: one of a user with an email, one
of a user without. -/
def demoVerify (token : String) : Option DecodedToken :=
  if token = "token-ann" then some ⟨some "ann@example.com"⟩
  else if token = "token-anonymous" then some ⟨none⟩
  else none

/-- A store with three payments, stored in the order they were made. -/
def demoPaidStore : Store :=
  ⟨[], [[("_id", Value.oid 10), ("email", Value.str "ann@example.com"),
          ("amount", Value.num 120), ("paid_at", Value.date 1700000000000)],
        [("_id", Value.oid 11), ("email", Value.str "bob@example.com"),
          ("amount", Value.num 80), ("paid_at", Value.date 1700000001000)],
        [("_id", Value.oid 12), ("email", Value.str "ann@example.com"),
          ("amount", Value.num 45), ("paid_at", Value.date 1700000002000)]], [], [], []⟩

/-! ## Creating parcels and reachable stores -/

/-- Handler of `app.post("/parcels")`. -/
def postParcels (env : Env) (req : Request) (s : Store) : Outcome :=
  let newParcel := req.body
  match Coll.insertOne env.insertId newParcel s.parcelCollection with
  | .error _ => ⟨some ⟨500, Body.message "Failed to Create Parcel"⟩, s⟩
  | .ok (parcels, insertedId) =>
    ⟨some ⟨201, Body.inserted insertedId⟩, { s with parcelCollection := parcels }⟩

/-- The operations on parcels: create, delete and the five lifecycle
operations. -/
inductive ParcelOp where
  | create
  | delete
  | lifecycle (op : LifecycleOp)
  deriving DecidableEq, Repr, Inhabited

/-- The handler an operation runs. -/
def ParcelOp.run : ParcelOp → Env → Request → Store → Outcome
  | ParcelOp.create => postParcels
  | ParcelOp.delete => deleteParcel
  | ParcelOp.lifecycle op => op.run

/-- The store with nothing in it. -/
def emptyStore : Store := ⟨[], [], [], [], []⟩

/-- The stores reachable from the empty store by running operations with any
environment and any request that `allowed` admits. -/
inductive Reachable (allowed : ParcelOp → Request → Prop) : Store → Prop where
  | empty : Reachable allowed emptyStore
  | step (op : ParcelOp) (env : Env) (req : Request) (s : Store) :
      Reachable allowed s → allowed op req → Reachable allowed (op.run env req s).store

/-- A field is set when it is present with a value other than null; a field
that is absent or holds null is unset. -/
def isSet : Option Value → Bool
  | none => false
  | some Value.null => false
  | some _ => true

/-- The three values are all set or all unset. -/
def together (a b c : Option Value) : Bool :=
  (isSet a && isSet b && isSet c) || (!isSet a && !isSet b && !isSet c)

/-- The three fields `assigned_rider_id`, `assigned_rider_name` and
`assigned_rider_email` of a document are all set or all unset. -/
def riderFieldsTogether (d : Doc) : Bool :=
  together (Doc.field d "assigned_rider_id") (Doc.field d "assigned_rider_name")
    (Doc.field d "assigned_rider_email")

/-- The three properties `riderId`, `riderName` and `assigned_rider_email` of
an assign body, the ones the handler copies into the parcel, are all set or
all unset. -/
def assignBodyTogether (body : Doc) : Bool :=
  together (Doc.field body "riderId") (Doc.field body "riderName")
    (Doc.field body "assigned_rider_email")

/-- Any request is admitted. -/
def anyRequest : ParcelOp → Request → Prop := fun _ _ => True

/-- A create request is admitted only when its body has the three
`assigned_rider_*` fields all set or all unset, and an assign request only
when its body has the three rider properties all set or all unset; other
requests are admitted as they come. -/
def suppliesTogether : ParcelOp → Request → Prop :=
  fun op req =>
    (op = ParcelOp.create → riderFieldsTogether req.body = true) ∧
      (op = ParcelOp.lifecycle LifecycleOp.assign → assignBodyTogether req.body = true)

/-- A parcel body that names a rider id but neither the rider name nor the
rider email. -/
def demoHalfAssigned : Request :=
  ⟨"", [("created_by", Value.str "ann@example.com"),
        ("delivery_status", Value.str "pending"),
        ("assigned_rider_id", Value.str demoRiderId)]⟩

/-- A parcel body without rider fields. -/
def demoNewParcel : Request :=
  ⟨"", [("created_by", Value.str "ann@example.com"),
        ("delivery_status", Value.str "pending"), ("payment_status", Value.str "unpaid")]⟩
/-! ## Basic facts about documents and collections -/

@[simp] theorem orNull_some (v : Value) : orNull (some v) = v := rfl

@[simp] theorem orNull_none : orNull none = Value.null := rfl

theorem Doc.field_setField_self (d : Doc) (k : String) (v : Value) :
    Doc.field (Doc.setField d k v) k = some v := by
  induction d with
  | nil => simp [Doc.setField, Doc.field]
  | cons kv rest ih =>
    obtain ⟨k', v'⟩ := kv
    by_cases h : k' = k
    · simp [Doc.setField, Doc.field, h]
    · simp [Doc.setField, Doc.field, h, ih]

theorem Doc.field_setField_ne (d : Doc) (k k' : String) (v : Value) (h : k' ≠ k) :
    Doc.field (Doc.setField d k v) k' = Doc.field d k' := by
  induction d with
  | nil => simp [Doc.setField, Doc.field, Ne.symm h]
  | cons kv rest ih =>
    obtain ⟨k₀, v₀⟩ := kv
    by_cases h₀ : k₀ = k
    · subst h₀
      simp [Doc.setField, Doc.field, Ne.symm h]
    · by_cases h₁ : k₀ = k'
      · subst h₁
        simp [Doc.setField, Doc.field, h₀]
      · simp [Doc.setField, Doc.field, h₀, h₁, ih]

theorem Doc.setField_eq_self_iff (d : Doc) (k : String) (v : Value) :
    Doc.setField d k v = d ↔ Doc.field d k = some v := by
  induction d with
  | nil => simp [Doc.setField, Doc.field]
  | cons kv rest ih =>
    obtain ⟨k', v'⟩ := kv
    by_cases h : k' = k
    · subst h
      simp [Doc.setField, Doc.field, eq_comm]
    · simp [Doc.setField, Doc.field, h, ih]

theorem Coll.updateOne_of_findOne_none (f : Doc → Bool) (upd : Doc) (c : Coll)
    (h : Coll.findOne f c = none) : Coll.updateOne f upd c = (c, ⟨0, 0⟩) := by
  induction c with
  | nil => rfl
  | cons d rest ih =>
    by_cases hd : f d = true
    · simp [Coll.findOne, hd] at h
    · simp only [Coll.findOne, hd] at h
      simp [Coll.updateOne, hd, ih h]

theorem Coll.updateOne_of_findOne_some (f : Doc → Bool) (upd : Doc) (c : Coll) (d : Doc)
    (h : Coll.findOne f c = some d) :
    ∃ pre post, c = pre ++ d :: post ∧ (∀ x ∈ pre, f x = false) ∧ f d = true ∧
      Coll.updateOne f upd c =
        (pre ++ Doc.applySet d upd :: post,
          ⟨1, if Doc.applySet d upd = d then 0 else 1⟩) := by
  induction c with
  | nil => simp [Coll.findOne] at h
  | cons x rest ih =>
    by_cases hx : f x = true
    · simp only [Coll.findOne, hx, if_true, Option.some.injEq] at h
      subst h
      exact ⟨[], rest, rfl, by simp, hx, by simp [Coll.updateOne, hx]⟩
    · simp only [Coll.findOne, hx] at h
      obtain ⟨pre, post, hc, hpre, hd, hu⟩ := ih h
      refine ⟨x :: pre, post, by simp [hc], ?_, hd, ?_⟩
      · intro y hy
        rcases List.mem_cons.mp hy with rfl | hy
        · simpa using hx
        · exact hpre y hy
      · simp [Coll.updateOne, hx, hu]

theorem Coll.findOne_append_cons (f : Doc → Bool) (pre post : Coll) (d : Doc)
    (hpre : ∀ x ∈ pre, f x = false) (hd : f d = true) :
    Coll.findOne f (pre ++ d :: post) = some d := by
  induction pre with
  | nil => simp [Coll.findOne, hd]
  | cons x rest ih =>
    have hx : f x = false := hpre x (List.mem_cons_self _ _)
    simp only [List.cons_append, Coll.findOne, hx]
    exact ih (fun y hy => hpre y (List.mem_cons_of_mem _ hy))

theorem Doc.erase_of_field_none (d : Doc) (k : String) (h : Doc.field d k = none) :
    Doc.erase d k = d := by
  induction d with
  | nil => rfl
  | cons kv rest ih =>
    obtain ⟨k', v⟩ := kv
    by_cases hk : k' = k
    · simp [Doc.field, hk] at h
    · simp only [Doc.field, hk, if_false] at h
      have := ih h
      simp only [Doc.erase] at this ⊢
      simp [List.filter_cons, hk, this]

theorem Doc.field_erase_ne (d : Doc) (k k' : String) (h : k' ≠ k) :
    Doc.field (Doc.erase d k) k' = Doc.field d k' := by
  induction d with
  | nil => rfl
  | cons kv rest ih =>
    obtain ⟨k₀, v⟩ := kv
    simp only [Doc.erase] at ih ⊢
    by_cases h₀ : k₀ = k
    · subst h₀
      simp [List.filter_cons, Doc.field, Ne.symm h, ih]
    · simp [List.filter_cons, h₀, Doc.field, ih]

theorem Coll.insertOne_fresh (fresh : Nat) (doc : Doc) (c : Coll)
    (hdoc : Doc.field doc "_id" = none)
    (hfresh : ∀ x ∈ c, Doc.field x "_id" ≠ some (Value.oid fresh)) :
    Coll.insertOne fresh doc c =
      .ok (c ++ [("_id", Value.oid fresh) :: doc], Value.oid fresh) := by
  have hany : (c.any fun d => decide (Doc.field d "_id" = some (Value.oid fresh))) = false := by
    rw [List.any_eq_false]
    intro x hx
    simpa using hfresh x hx
  simp only [Coll.insertOne, hdoc, Doc.erase_of_field_none doc "_id" hdoc, hany]
  simp

theorem ObjectId.new_str_of_parse {gen : Nat} {x : String} {i : Nat}
    (h : ObjectId.parse x = some i) :
    ObjectId.new gen (some (Value.str x)) = .ok i := by
  simp [ObjectId.new, h]

theorem ObjectId.new_str_of_parse_none {gen : Nat} {x : String}
    (h : ObjectId.parse x = none) :
    ObjectId.new gen (some (Value.str x)) = .error DriverError.bsonError := by
  simp [ObjectId.new, h]

/-! ## Payment recorder -/

/-- Claim C1. Recording a payment for a well-formed parcel id whose parcel is
missing or already has `payment_status = "paid"` answers 404 with the message
"Parcel not found or already paid" and leaves the store, in particular the
payments collection, as it was: no payment record is inserted. -/
theorem postPayments_conflict (env : Env) (req : Request) (s : Store)
    (parcelId : String) (pid : Nat)
    (hbody : Doc.field req.body "parcelId" = some (Value.str parcelId))
    (hid : ObjectId.parse parcelId = some pid)
    (hparcel : Coll.findOne (idIs pid) s.parcelCollection = none ∨
      ∃ d, Coll.findOne (idIs pid) s.parcelCollection = some d ∧
        Doc.field d "payment_status" = some (Value.str "paid")) :
    (postPayments env req s).reply =
        some ⟨404, Body.message "Parcel not found or already paid"⟩ ∧
      (postPayments env req s).store.paymentsCollection = s.paymentsCollection ∧
      (postPayments env req s).store = s := by
  have hnew := @ObjectId.new_str_of_parse env.genId _ _ hid
  have key : postPayments env req s =
      ⟨some ⟨404, Body.message "Parcel not found or already paid"⟩, s⟩ := by
    rcases hparcel with hnone | ⟨d, hd, hpaid⟩
    · simp [postPayments, hbody, hnew, Coll.updateOne_of_findOne_none _ _ _ hnone]
    · obtain ⟨pre, post, hc, -, -, hu⟩ :=
        Coll.updateOne_of_findOne_some (idIs pid) [("payment_status", Value.str "paid")] _ d hd
      have hsame : Doc.applySet d [("payment_status", Value.str "paid")] = d := by
        simpa [Doc.applySet] using (Doc.setField_eq_self_iff d _ _).mpr hpaid
      rw [hsame] at hu
      simp [postPayments, hbody, hnew, hu, ← hc]
  rw [key]
  exact ⟨rfl, rfl, rfl⟩

/-- Claim C1 at the paid parcel of the demo store. -/
theorem postPayments_conflict_witness :
    (postPayments demoEnv (demoPayment demoPaidParcelId) demoStore).reply =
        some ⟨404, Body.message "Parcel not found or already paid"⟩ ∧
      (postPayments demoEnv (demoPayment demoPaidParcelId) demoStore).store.paymentsCollection =
        demoStore.paymentsCollection ∧
      (postPayments demoEnv (demoPayment demoPaidParcelId) demoStore).store = demoStore :=
  postPayments_conflict demoEnv (demoPayment demoPaidParcelId) demoStore demoPaidParcelId 3
    (by decide) (by decide) (Or.inr ⟨demoPaidParcel, by decide, by decide⟩)

/-- Claim C2. Recording a payment for a well-formed parcel id whose parcel
exists and is not yet paid answers 201, appends exactly one record to the
payments collection carrying the request's parcelId, email, amount,
paymentMethod and transactionId (with the two time stamps and the generated
`_id`), and sets that parcel's `payment_status` to "paid": the parcels before
and after it, its other fields and the other collections are unchanged. -/
theorem postPayments_records (env : Env) (req : Request) (s : Store)
    (parcelId : String) (pid : Nat) (d : Doc)
    (hbody : Doc.field req.body "parcelId" = some (Value.str parcelId))
    (hid : ObjectId.parse parcelId = some pid)
    (hparcel : Coll.findOne (idIs pid) s.parcelCollection = some d)
    (hunpaid : Doc.field d "payment_status" ≠ some (Value.str "paid"))
    (hfresh : ∀ x ∈ s.paymentsCollection, Doc.field x "_id" ≠ some (Value.oid env.insertId)) :
    ∃ pre post d',
      s.parcelCollection = pre ++ d :: post ∧ (∀ x ∈ pre, idIs pid x = false) ∧
      Doc.field d' "payment_status" = some (Value.str "paid") ∧
      (∀ k, k ≠ "payment_status" → Doc.field d' k = Doc.field d k) ∧
      postPayments env req s =
        ⟨some ⟨201, Body.recorded "Payment recorded and marked as paid!"
            (Value.oid env.insertId)⟩,
          { s with
            parcelCollection := pre ++ d' :: post
            paymentsCollection := s.paymentsCollection ++
              [[("_id", Value.oid env.insertId),
                ("parcelId", Value.str parcelId),
                ("email", orNull (Doc.field req.body "email")),
                ("amount", orNull (Doc.field req.body "amount")),
                ("paymentMethod", orNull (Doc.field req.body "paymentMethod")),
                ("transactionId", orNull (Doc.field req.body "transactionId")),
                ("paid_at_string", Value.str env.nowIso),
                ("paid_at", Value.date env.now)]] }⟩ := by
  have hnew := @ObjectId.new_str_of_parse env.genId _ _ hid
  obtain ⟨pre, post, hc, hpre, -, hu⟩ :=
    Coll.updateOne_of_findOne_some (idIs pid) [("payment_status", Value.str "paid")] _ d hparcel
  have hset : Doc.applySet d [("payment_status", Value.str "paid")] =
      Doc.setField d "payment_status" (Value.str "paid") := by simp [Doc.applySet]
  have hchanged : Doc.setField d "payment_status" (Value.str "paid") ≠ d := fun h =>
    hunpaid ((Doc.setField_eq_self_iff d _ _).mp h)
  rw [hset, if_neg hchanged] at hu
  refine ⟨pre, post, Doc.setField d "payment_status" (Value.str "paid"), hc, hpre,
    Doc.field_setField_self _ _ _, fun k hk => Doc.field_setField_ne _ _ _ _ hk, ?_⟩
  have hins := Coll.insertOne_fresh env.insertId
    [("parcelId", Value.str parcelId), ("email", orNull (Doc.field req.body "email")),
     ("amount", orNull (Doc.field req.body "amount")),
     ("paymentMethod", orNull (Doc.field req.body "paymentMethod")),
     ("transactionId", orNull (Doc.field req.body "transactionId")),
     ("paid_at_string", Value.str env.nowIso), ("paid_at", Value.date env.now)]
    s.paymentsCollection (by simp [Doc.field]) hfresh
  simp [postPayments, hbody, hnew, hu, hins]

/-- Claim C2 at the unpaid parcel of the demo store. -/
theorem postPayments_records_witness :
    ∃ pre post d',
      demoStore.parcelCollection = pre ++ demoParcel :: post ∧
      (∀ x ∈ pre, idIs 1 x = false) ∧
      Doc.field d' "payment_status" = some (Value.str "paid") ∧
      (∀ k, k ≠ "payment_status" → Doc.field d' k = Doc.field demoParcel k) ∧
      postPayments demoEnv (demoPayment demoParcelId) demoStore =
        ⟨some ⟨201, Body.recorded "Payment recorded and marked as paid!"
            (Value.oid demoEnv.insertId)⟩,
          { demoStore with
            parcelCollection := pre ++ d' :: post
            paymentsCollection := demoStore.paymentsCollection ++
              [[("_id", Value.oid demoEnv.insertId),
                ("parcelId", Value.str demoParcelId),
                ("email", orNull (Doc.field (demoPayment demoParcelId).body "email")),
                ("amount", orNull (Doc.field (demoPayment demoParcelId).body "amount")),
                ("paymentMethod",
                  orNull (Doc.field (demoPayment demoParcelId).body "paymentMethod")),
                ("transactionId",
                  orNull (Doc.field (demoPayment demoParcelId).body "transactionId")),
                ("paid_at_string", Value.str demoEnv.nowIso),
                ("paid_at", Value.date demoEnv.now)]] }⟩ :=
  postPayments_records demoEnv (demoPayment demoParcelId) demoStore demoParcelId 1 demoParcel
    (by decide) (by decide) (by decide) (by decide) (by decide)

/-! ## Delivery lifecycle -/

theorem Coll.updateOne_length (f : Doc → Bool) (upd : Doc) (c : Coll) :
    (Coll.updateOne f upd c).1.length = c.length := by
  induction c with
  | nil => rfl
  | cons d rest ih =>
    by_cases hd : f d = true
    · simp [Coll.updateOne, hd]
    · simp [Coll.updateOne, hd, ih]

theorem Coll.updateOne_getElem? (f : Doc → Bool) (upd : Doc) (coll : Coll) (i : Nat) :
    ((Coll.updateOne f upd coll).1)[i]? = coll[i]? ∨
      ∃ d, coll[i]? = some d ∧
        ((Coll.updateOne f upd coll).1)[i]? = some (Doc.applySet d upd) := by
  induction coll generalizing i with
  | nil => left; rfl
  | cons d rest ih =>
    by_cases hd : f d = true
    · cases i with
      | zero => right; exact ⟨d, by simp, by simp [Coll.updateOne, hd]⟩
      | succ j => left; simp [Coll.updateOne, hd]
    · cases i with
      | zero => left; simp [Coll.updateOne, hd]
      | succ j =>
        rcases ih j with h | ⟨x, hx, hx'⟩
        · left; simpa [Coll.updateOne, hd] using h
        · right; exact ⟨x, by simpa using hx, by simpa [Coll.updateOne, hd] using hx'⟩

/-- The parcel collection an operation leaves is the one it found, or that one
after a single `updateOne` whose `$set` either leaves `delivery_status` alone
or writes the operation's target. -/
theorem LifecycleOp.run_parcels (op : LifecycleOp) (env : Env) (req : Request) (s : Store) :
    (op.run env req s).store.parcelCollection = s.parcelCollection ∨
      ∃ pid upd, (op.run env req s).store.parcelCollection =
          (Coll.updateOne (idIs pid) upd s.parcelCollection).1 ∧
        ∀ d, Doc.field (Doc.applySet d upd) "delivery_status" = Doc.field d "delivery_status" ∨
          ∃ t, op.target = some t ∧
            Doc.field (Doc.applySet d upd) "delivery_status" = some (Value.str t) := by
  cases op
  · -- assign
    simp only [LifecycleOp.run, patchAssign]
    split
    · left; rfl
    · rename_i pid _
      right
      refine ⟨pid, [("delivery_status", Value.str "in_transit"),
        ("assigned_rider_id", orNull (Doc.field req.body "riderId")),
        ("assigned_rider_name", orNull (Doc.field req.body "riderName")),
        ("assigned_rider_email", orNull (Doc.field req.body "assigned_rider_email"))], ?_, ?_⟩
      · split <;> rfl
      · intro d
        right
        exact ⟨"in_transit", rfl, by
          simp [Doc.applySet, Doc.field_setField_ne, Doc.field_setField_self]⟩
  · -- pickup
    simp only [LifecycleOp.run, patchPickup, patchStatus]
    split
    · left; rfl
    · split
      · left; rfl
      · rename_i pid _
        right
        refine ⟨pid, [("delivery_status", Value.str "picked_up")], ?_, ?_⟩
        · split <;> rfl
        · intro d
          right
          exact ⟨"picked_up", rfl, by simp [Doc.applySet, Doc.field_setField_self]⟩
  · -- deliver
    simp only [LifecycleOp.run, patchDeliver, patchStatus]
    split
    · left; rfl
    · split
      · left; rfl
      · rename_i pid _
        right
        refine ⟨pid, [("delivery_status", Value.str "delivered")], ?_, ?_⟩
        · split <;> rfl
        · intro d
          right
          exact ⟨"delivered", rfl, by simp [Doc.applySet, Doc.field_setField_self]⟩
  · -- cashout
    simp only [LifecycleOp.run, patchCashout]
    split
    · left; rfl
    · rename_i pid _
      right
      refine ⟨pid, [("cashout_status", Value.str "cashed_out"),
        ("cashed_out_at", Value.date env.now)], rfl, ?_⟩
      intro d
      left
      simp [Doc.applySet, Doc.field_setField_ne]
  · -- record payment
    simp only [LifecycleOp.run, postPayments]
    split
    · left; rfl
    · rename_i pid _
      right
      refine ⟨pid, [("payment_status", Value.str "paid")], ?_, ?_⟩
      · split
        · rfl
        · split <;> rfl
      · intro d
        left
        simp [Doc.applySet, Doc.field_setField_ne]

theorem statusRank_eq_some (x : Option Value) (a : Nat) (h : statusRank x = some a) :
    (x = some (Value.str "pending") ∧ a = 0) ∨ (x = some (Value.str "in_transit") ∧ a = 1) ∨
      (x = some (Value.str "picked_up") ∧ a = 2) ∨ (x = some (Value.str "delivered") ∧ a = 3) := by
  match x, h with
  | some (Value.str st), h =>
    simp only [statusRank] at h
    split_ifs at h with h0 h1 h2 h3
    · subst h0; left; exact ⟨rfl, by simpa using h.symm⟩
    · subst h1; right; left; exact ⟨rfl, by simpa using h.symm⟩
    · subst h2; right; right; left; exact ⟨rfl, by simpa using h.symm⟩
    · subst h3; right; right; right; exact ⟨rfl, by simpa using h.symm⟩

theorem statusRank_injective (x y : Option Value) (a : Nat)
    (hx : statusRank x = some a) (hy : statusRank y = some a) : x = y := by
  rcases statusRank_eq_some x a hx with ⟨rfl, ha⟩ | ⟨rfl, ha⟩ | ⟨rfl, ha⟩ | ⟨rfl, ha⟩ <;>
    rcases statusRank_eq_some y a hy with ⟨rfl, hb⟩ | ⟨rfl, hb⟩ | ⟨rfl, hb⟩ | ⟨rfl, hb⟩ <;>
    first | rfl | omega

/-- Counterexample to claim C3 as stated: assigning a rider to the delivered
parcel of the demo store moves its `delivery_status` from "delivered" back to
"in_transit". -/
theorem assign_moves_delivered_back :
    deliveryStatusAt demoStore 1 = some (Value.str "delivered") ∧
      deliveryStatusAt
          (LifecycleOp.run LifecycleOp.assign demoEnv (demoRiderAction demoPaidParcelId)
            demoStore).store 1 = some (Value.str "in_transit") ∧
      notEarlier (deliveryStatusAt demoStore 1)
          (deliveryStatusAt
            (LifecycleOp.run LifecycleOp.assign demoEnv (demoRiderAction demoPaidParcelId)
              demoStore).store 1) = false := by
  decide

/-- Claim C3, as amended. A lifecycle operation keeps every parcel in its
place, and a parcel's `delivery_status` after it is the previous value or the
operation's fixed target (in_transit for assign, picked_up for pickup,
delivered for deliver; cashout and record-payment have no target, so they
never change it). Hence the status is not moved back whenever the operation
is applied to a parcel whose status is not later than that target. -/
theorem lifecycle_status_step (op : LifecycleOp) (env : Env) (req : Request) (s : Store) :
    (op.run env req s).store.parcelCollection.length = s.parcelCollection.length ∧
      ∀ i,
        (deliveryStatusAt (op.run env req s).store i = deliveryStatusAt s i ∨
          ∃ t, op.target = some t ∧
            deliveryStatusAt (op.run env req s).store i = some (Value.str t)) ∧
        (∀ t a b, op.target = some t → statusRank (deliveryStatusAt s i) = some a →
          statusRank (some (Value.str t)) = some b → a ≤ b →
          notEarlier (deliveryStatusAt s i) (deliveryStatusAt (op.run env req s).store i) =
            true) := by
  have hstep : (op.run env req s).store.parcelCollection.length = s.parcelCollection.length ∧
      ∀ i, deliveryStatusAt (op.run env req s).store i = deliveryStatusAt s i ∨
        ∃ t, op.target = some t ∧
          deliveryStatusAt (op.run env req s).store i = some (Value.str t) := by
    rcases LifecycleOp.run_parcels op env req s with h | ⟨pid, upd, h, hupd⟩
    · exact ⟨by rw [h], fun i => Or.inl (by simp [deliveryStatusAt, h])⟩
    · refine ⟨by rw [h, Coll.updateOne_length], fun i => ?_⟩
      rcases Coll.updateOne_getElem? (idIs pid) upd s.parcelCollection i with hi | ⟨d, hd, hd'⟩
      · left
        simp [deliveryStatusAt, h, hi]
      · rcases hupd d with hsame | ⟨t, ht, htarget⟩
        · left
          simp [deliveryStatusAt, h, hd, hd', hsame]
        · right
          exact ⟨t, ht, by simp [deliveryStatusAt, h, hd', htarget]⟩
  refine ⟨hstep.1, fun i => ⟨hstep.2 i, ?_⟩⟩
  intro t a b ht ha hb hab
  rcases hstep.2 i with hsame | ⟨t', ht', hafter⟩
  · simp [notEarlier, hsame]
  · have htt : t' = t := by
      rw [ht] at ht'
      exact (Option.some.inj ht').symm
    subst htt
    rw [hafter]
    rcases Nat.lt_or_ge a b with hlt | hge
    · simp [notEarlier, ha, hb, hlt]
    · have hba : a = b := Nat.le_antisymm hab hge
      subst hba
      have := statusRank_injective _ _ a ha hb
      simp [notEarlier, this]

/-- Claim C3, as amended, at the pending parcel of the demo store: assign moves
it forward. -/
theorem lifecycle_status_step_witness :
    notEarlier (deliveryStatusAt demoStore 0)
      (deliveryStatusAt
        (LifecycleOp.run LifecycleOp.assign demoEnv (demoRiderAction demoParcelId)
          demoStore).store 0) = true :=
  ((lifecycle_status_step LifecycleOp.assign demoEnv (demoRiderAction demoParcelId)
    demoStore).2 0).2 "in_transit" 0 1 rfl (by decide) (by decide) (by decide)

/-! ## Assign, pickup, deliver -/

theorem truthy_str (x : String) : truthy (some (Value.str x)) = (x != "") := rfl

theorem ObjectId.parse_ne_empty {x : String} {i : Nat} (h : ObjectId.parse x = some i) :
    x ≠ "" := by
  rintro rfl
  simp [ObjectId.parse] at h

theorem Coll.updateOne_replacesFirst (f : Doc → Bool) (upd : Doc) (coll : Coll) (d : Doc)
    (h : Coll.findOne f coll = some d) (hkeep : f (Doc.applySet d upd) = true) :
    Coll.ReplacesFirst f d (Doc.applySet d upd) coll (Coll.updateOne f upd coll).1 ∧
      (Coll.updateOne f upd coll).2 = ⟨1, if Doc.applySet d upd = d then 0 else 1⟩ := by
  obtain ⟨pre, post, hc, hpre, hd, hu⟩ := Coll.updateOne_of_findOne_some f upd coll d h
  rw [hu]
  exact ⟨⟨pre, post, hc, rfl, hpre, hd, hkeep⟩, rfl⟩

theorem Coll.ReplacesFirst.findOne_before {f : Doc → Bool} {d d' : Doc} {coll coll' : Coll}
    (h : Coll.ReplacesFirst f d d' coll coll') : Coll.findOne f coll = some d := by
  obtain ⟨pre, post, hc, -, hpre, hd, -⟩ := h
  rw [hc]
  exact Coll.findOne_append_cons f pre post d hpre hd

theorem Coll.ReplacesFirst.findOne_after {f : Doc → Bool} {d d' : Doc} {coll coll' : Coll}
    (h : Coll.ReplacesFirst f d d' coll coll') : Coll.findOne f coll' = some d' := by
  obtain ⟨pre, post, -, hc, hpre, -, hd⟩ := h
  rw [hc]
  exact Coll.findOne_append_cons f pre post d' hpre hd

theorem Coll.findOne_matches {f : Doc → Bool} {coll : Coll} {d : Doc}
    (h : Coll.findOne f coll = some d) : f d = true := by
  obtain ⟨_, _, _, _, hd, _⟩ := Coll.updateOne_of_findOne_some f [] coll d h
  exact hd

/-- With convertible ids the assign handler runs both updates and answers 200. -/
theorem patchAssign_valid (env : Env) (req : Request) (s : Store) (riderId : String)
    (pid rid : Nat) (hpid : ObjectId.parse req.param = some pid)
    (hbody : Doc.field req.body "riderId" = some (Value.str riderId))
    (hrid : ObjectId.parse riderId = some rid) :
    patchAssign env req s =
      ⟨some ⟨200, Body.assigned
          (Coll.updateOne (idIs pid)
            [("delivery_status", Value.str "in_transit"),
             ("assigned_rider_id", Value.str riderId),
             ("assigned_rider_name", orNull (Doc.field req.body "riderName")),
             ("assigned_rider_email", orNull (Doc.field req.body "assigned_rider_email"))]
            s.parcelCollection).2
          (Coll.updateOne (idIs rid) [("work_status", Value.str "in_delivery")]
            s.ridersCollection).2⟩,
        { s with
          parcelCollection := (Coll.updateOne (idIs pid)
            [("delivery_status", Value.str "in_transit"),
             ("assigned_rider_id", Value.str riderId),
             ("assigned_rider_name", orNull (Doc.field req.body "riderName")),
             ("assigned_rider_email", orNull (Doc.field req.body "assigned_rider_email"))]
            s.parcelCollection).1
          ridersCollection := (Coll.updateOne (idIs rid)
            [("work_status", Value.str "in_delivery")] s.ridersCollection).1 }⟩ := by
  simp [patchAssign, hbody, ObjectId.new_str_of_parse hpid, ObjectId.new_str_of_parse hrid]

/-- With convertible ids the pickup and deliver handlers run both updates and
answer 200 with the two modified counts. -/
theorem patchStatus_valid (deliveryStatus workStatus : String) (env : Env) (req : Request)
    (s : Store) (riderId : String) (pid rid : Nat)
    (hpid : ObjectId.parse req.param = some pid)
    (hbody : Doc.field req.body "riderId" = some (Value.str riderId))
    (hrid : ObjectId.parse riderId = some rid) :
    patchStatus deliveryStatus workStatus env req s =
      ⟨some ⟨200, Body.updated
          (Coll.updateOne (idIs pid) [("delivery_status", Value.str deliveryStatus)]
            s.parcelCollection).2.modifiedCount
          (Coll.updateOne (idIs rid) [("work_status", Value.str workStatus)]
            s.ridersCollection).2.modifiedCount⟩,
        { s with
          parcelCollection := (Coll.updateOne (idIs pid)
            [("delivery_status", Value.str deliveryStatus)] s.parcelCollection).1
          ridersCollection := (Coll.updateOne (idIs rid)
            [("work_status", Value.str workStatus)] s.ridersCollection).1 }⟩ := by
  have h1 := ObjectId.parse_ne_empty hpid
  have h2 := ObjectId.parse_ne_empty hrid
  simp [patchStatus, hbody, truthy, h1, h2, ObjectId.new_str_of_parse hpid,
    ObjectId.new_str_of_parse hrid]

theorem idIs_setField (i : Nat) (d : Doc) (k : String) (v : Value) (hk : k ≠ "_id") :
    idIs i (Doc.setField d k v) = idIs i d := by
  simp [idIs, Doc.field_setField_ne d k "_id" v (Ne.symm hk)]

/-- Effect of the assign handler on an existing parcel and rider. -/
theorem patchAssign_step (env : Env) (req : Request) (s : Store) (riderId : String)
    (pid rid : Nat) (p r : Doc) (hpid : ObjectId.parse req.param = some pid)
    (hbody : Doc.field req.body "riderId" = some (Value.str riderId))
    (hrid : ObjectId.parse riderId = some rid)
    (hparcel : Coll.findOne (idIs pid) s.parcelCollection = some p)
    (hrider : Coll.findOne (idIs rid) s.ridersCollection = some r) :
    (∃ pr rr, (patchAssign env req s).reply = some ⟨200, Body.assigned pr rr⟩) ∧
      Store.ChangesOnly s (patchAssign env req s).store pid p
        (Doc.applySet p
          [("delivery_status", Value.str "in_transit"),
           ("assigned_rider_id", Value.str riderId),
           ("assigned_rider_name", orNull (Doc.field req.body "riderName")),
           ("assigned_rider_email", orNull (Doc.field req.body "assigned_rider_email"))])
        rid r (Doc.setField r "work_status" (Value.str "in_delivery")) := by
  rw [patchAssign_valid env req s riderId pid rid hpid hbody hrid]
  have hp := Coll.findOne_matches hparcel
  have hr := Coll.findOne_matches hrider
  have h1 := Coll.updateOne_replacesFirst (idIs pid)
    [("delivery_status", Value.str "in_transit"),
     ("assigned_rider_id", Value.str riderId),
     ("assigned_rider_name", orNull (Doc.field req.body "riderName")),
     ("assigned_rider_email", orNull (Doc.field req.body "assigned_rider_email"))]
    s.parcelCollection p hparcel (by simpa [Doc.applySet, idIs_setField] using hp)
  have h2 := Coll.updateOne_replacesFirst (idIs rid) [("work_status", Value.str "in_delivery")]
    s.ridersCollection r hrider (by simpa [Doc.applySet, idIs_setField] using hr)
  exact ⟨⟨_, _, rfl⟩, h1.1, h2.1, rfl, rfl, rfl⟩

/-- Effect of the pickup and deliver handlers on an existing parcel and rider. -/
theorem patchStatus_step (deliveryStatus workStatus : String) (env : Env) (req : Request)
    (s : Store) (riderId : String) (pid rid : Nat) (p r : Doc)
    (hpid : ObjectId.parse req.param = some pid)
    (hbody : Doc.field req.body "riderId" = some (Value.str riderId))
    (hrid : ObjectId.parse riderId = some rid)
    (hparcel : Coll.findOne (idIs pid) s.parcelCollection = some p)
    (hrider : Coll.findOne (idIs rid) s.ridersCollection = some r) :
    (patchStatus deliveryStatus workStatus env req s).reply =
        some ⟨200, Body.updated
          (if Doc.setField p "delivery_status" (Value.str deliveryStatus) = p then 0 else 1)
          (if Doc.setField r "work_status" (Value.str workStatus) = r then 0 else 1)⟩ ∧
      Store.ChangesOnly s (patchStatus deliveryStatus workStatus env req s).store pid p
        (Doc.setField p "delivery_status" (Value.str deliveryStatus))
        rid r (Doc.setField r "work_status" (Value.str workStatus)) := by
  rw [patchStatus_valid deliveryStatus workStatus env req s riderId pid rid hpid hbody hrid]
  have hp := Coll.findOne_matches hparcel
  have hr := Coll.findOne_matches hrider
  have h1 := Coll.updateOne_replacesFirst (idIs pid)
    [("delivery_status", Value.str deliveryStatus)]
    s.parcelCollection p hparcel (by simpa [Doc.applySet, idIs_setField] using hp)
  have h2 := Coll.updateOne_replacesFirst (idIs rid) [("work_status", Value.str workStatus)]
    s.ridersCollection r hrider (by simpa [Doc.applySet, idIs_setField] using hr)
  refine ⟨?_, h1.1, h2.1, rfl, rfl, rfl⟩
  simp only [h1.2, h2.2]
  rfl

/-- Claim C4. For an existing parcel and an existing rider given by
well-formed ids, assign answers 200 and performs both writes whatever the
parcel's current `delivery_status`: the parcel gets `delivery_status =
"in_transit"` and the request's riderId, riderName and assigned_rider_email
(a property missing from the body is stored as null) as `assigned_rider_id`,
`assigned_rider_name`, `assigned_rider_email`, and the rider gets
`work_status = "in_delivery"`; nothing else in the store changes. -/
theorem patchAssign_assigns (env : Env) (req : Request) (s : Store) (riderId : String)
    (pid rid : Nat) (p r : Doc) (hpid : ObjectId.parse req.param = some pid)
    (hbody : Doc.field req.body "riderId" = some (Value.str riderId))
    (hrid : ObjectId.parse riderId = some rid)
    (hparcel : Coll.findOne (idIs pid) s.parcelCollection = some p)
    (hrider : Coll.findOne (idIs rid) s.ridersCollection = some r) :
    ∃ p' r',
      (∃ pr rr, (patchAssign env req s).reply = some ⟨200, Body.assigned pr rr⟩) ∧
      Store.ChangesOnly s (patchAssign env req s).store pid p p' rid r r' ∧
      Doc.field p' "delivery_status" = some (Value.str "in_transit") ∧
      Doc.field p' "assigned_rider_id" = some (Value.str riderId) ∧
      Doc.field p' "assigned_rider_name" = some (orNull (Doc.field req.body "riderName")) ∧
      Doc.field p' "assigned_rider_email" =
        some (orNull (Doc.field req.body "assigned_rider_email")) ∧
      (∀ k, k ≠ "delivery_status" → k ≠ "assigned_rider_id" → k ≠ "assigned_rider_name" →
        k ≠ "assigned_rider_email" → Doc.field p' k = Doc.field p k) ∧
      Doc.field r' "work_status" = some (Value.str "in_delivery") ∧
      (∀ k, k ≠ "work_status" → Doc.field r' k = Doc.field r k) := by
  obtain ⟨hreply, hchange⟩ :=
    patchAssign_step env req s riderId pid rid p r hpid hbody hrid hparcel hrider
  refine ⟨_, _, hreply, hchange, ?_, ?_, ?_, ?_, ?_, ?_, ?_⟩
  · simp [Doc.applySet, Doc.field_setField_self, Doc.field_setField_ne]
  · simp [Doc.applySet, Doc.field_setField_self, Doc.field_setField_ne]
  · simp [Doc.applySet, Doc.field_setField_self, Doc.field_setField_ne]
  · simp [Doc.applySet, Doc.field_setField_self]
  · intro k h1 h2 h3 h4
    simp [Doc.applySet, Doc.field_setField_ne _ _ _ _ h1, Doc.field_setField_ne _ _ _ _ h2,
      Doc.field_setField_ne _ _ _ _ h3, Doc.field_setField_ne _ _ _ _ h4]
  · exact Doc.field_setField_self _ _ _
  · intro k hk
    exact Doc.field_setField_ne _ _ _ _ hk

/-- Claim C4 at the delivered parcel of the demo store, which is not pending. -/
theorem patchAssign_assigns_witness :
    ∃ p' r',
      (∃ pr rr, (patchAssign demoEnv (demoRiderAction demoPaidParcelId) demoStore).reply =
        some ⟨200, Body.assigned pr rr⟩) ∧
      Store.ChangesOnly demoStore
        (patchAssign demoEnv (demoRiderAction demoPaidParcelId) demoStore).store
        3 demoPaidParcel p' 2 demoRider r' ∧
      Doc.field p' "delivery_status" = some (Value.str "in_transit") ∧
      Doc.field p' "assigned_rider_id" = some (Value.str demoRiderId) ∧
      Doc.field p' "assigned_rider_name" =
        some (orNull (Doc.field (demoRiderAction demoPaidParcelId).body "riderName")) ∧
      Doc.field p' "assigned_rider_email" =
        some (orNull
          (Doc.field (demoRiderAction demoPaidParcelId).body "assigned_rider_email")) ∧
      (∀ k, k ≠ "delivery_status" → k ≠ "assigned_rider_id" → k ≠ "assigned_rider_name" →
        k ≠ "assigned_rider_email" → Doc.field p' k = Doc.field demoPaidParcel k) ∧
      Doc.field r' "work_status" = some (Value.str "in_delivery") ∧
      (∀ k, k ≠ "work_status" → Doc.field r' k = Doc.field demoRider k) :=
  patchAssign_assigns demoEnv (demoRiderAction demoPaidParcelId) demoStore demoRiderId 3 2
    demoPaidParcel demoRider (by decide) (by decide) (by decide) (by decide) (by decide)

/-- Claim C5. On a store holding a parcel P1 (pending, or in any other state)
and a rider R1, the requests assign, pickup, deliver for (P1, R1) in sequence
leave (P1.delivery_status, R1.work_status) at (in_transit, in_delivery), then
(picked_up, busy), then (delivered, free); pickup and deliver answer 200 with
`success: true` and `parcelUpdated = 1`; and each step changes nothing but the
documents of P1 and R1. -/
theorem lifecycle_scenario (env₁ env₂ env₃ : Env) (parcelId riderId : String)
    (bodyA bodyP bodyD : Doc) (s : Store) (pid rid : Nat) (p r : Doc)
    (hpid : ObjectId.parse parcelId = some pid) (hrid : ObjectId.parse riderId = some rid)
    (hA : Doc.field bodyA "riderId" = some (Value.str riderId))
    (hP : Doc.field bodyP "riderId" = some (Value.str riderId))
    (hD : Doc.field bodyD "riderId" = some (Value.str riderId))
    (hparcel : Coll.findOne (idIs pid) s.parcelCollection = some p)
    (hrider : Coll.findOne (idIs rid) s.ridersCollection = some r) :
    ∃ p₁ p₂ p₃ r₁ r₂ r₃,
      Store.ChangesOnly s (patchAssign env₁ ⟨parcelId, bodyA⟩ s).store pid p p₁ rid r r₁ ∧
      Doc.field p₁ "delivery_status" = some (Value.str "in_transit") ∧
      Doc.field r₁ "work_status" = some (Value.str "in_delivery") ∧
      Store.ChangesOnly (patchAssign env₁ ⟨parcelId, bodyA⟩ s).store
        (patchPickup env₂ ⟨parcelId, bodyP⟩ (patchAssign env₁ ⟨parcelId, bodyA⟩ s).store).store
        pid p₁ p₂ rid r₁ r₂ ∧
      (∃ n, (patchPickup env₂ ⟨parcelId, bodyP⟩
          (patchAssign env₁ ⟨parcelId, bodyA⟩ s).store).reply =
        some ⟨200, Body.updated 1 n⟩) ∧
      Doc.field p₂ "delivery_status" = some (Value.str "picked_up") ∧
      Doc.field r₂ "work_status" = some (Value.str "busy") ∧
      Store.ChangesOnly
        (patchPickup env₂ ⟨parcelId, bodyP⟩ (patchAssign env₁ ⟨parcelId, bodyA⟩ s).store).store
        (patchDeliver env₃ ⟨parcelId, bodyD⟩
          (patchPickup env₂ ⟨parcelId, bodyP⟩
            (patchAssign env₁ ⟨parcelId, bodyA⟩ s).store).store).store
        pid p₂ p₃ rid r₂ r₃ ∧
      (∃ n, (patchDeliver env₃ ⟨parcelId, bodyD⟩
          (patchPickup env₂ ⟨parcelId, bodyP⟩
            (patchAssign env₁ ⟨parcelId, bodyA⟩ s).store).store).reply =
        some ⟨200, Body.updated 1 n⟩) ∧
      Doc.field p₃ "delivery_status" = some (Value.str "delivered") ∧
      Doc.field r₃ "work_status" = some (Value.str "free") := by
  obtain ⟨-, hc₁⟩ := patchAssign_step env₁ ⟨parcelId, bodyA⟩ s riderId pid rid p r
    hpid hA hrid hparcel hrider
  have hds₁ : Doc.field (Doc.applySet p
      [("delivery_status", Value.str "in_transit"),
       ("assigned_rider_id", Value.str riderId),
       ("assigned_rider_name", orNull (Doc.field bodyA "riderName")),
       ("assigned_rider_email", orNull (Doc.field bodyA "assigned_rider_email"))])
      "delivery_status" = some (Value.str "in_transit") := by
    simp [Doc.applySet, Doc.field_setField_self, Doc.field_setField_ne]
  obtain ⟨hr₂, hc₂⟩ := patchStatus_step "picked_up" "busy" env₂ ⟨parcelId, bodyP⟩
    (patchAssign env₁ ⟨parcelId, bodyA⟩ s).store riderId pid rid _ _ hpid hP hrid
    hc₁.1.findOne_after hc₁.2.1.findOne_after
  have hds₂ := Doc.field_setField_self (Doc.applySet p
      [("delivery_status", Value.str "in_transit"),
       ("assigned_rider_id", Value.str riderId),
       ("assigned_rider_name", orNull (Doc.field bodyA "riderName")),
       ("assigned_rider_email", orNull (Doc.field bodyA "assigned_rider_email"))])
      "delivery_status" (Value.str "picked_up")
  obtain ⟨hr₃, hc₃⟩ := patchStatus_step "delivered" "free" env₃ ⟨parcelId, bodyD⟩
    (patchPickup env₂ ⟨parcelId, bodyP⟩ (patchAssign env₁ ⟨parcelId, bodyA⟩ s).store).store
    riderId pid rid _ _ hpid hD hrid hc₂.1.findOne_after hc₂.2.1.findOne_after
  have key : ∀ (d : Doc) (a b : String), Doc.field d "delivery_status" = some (Value.str a) →
      a ≠ b → Doc.setField d "delivery_status" (Value.str b) ≠ d := by
    intro d a b hd hab h
    rw [Doc.setField_eq_self_iff, hd] at h
    simp at h
    exact hab h
  have he₂ : ∃ n, (patchPickup env₂ ⟨parcelId, bodyP⟩
      (patchAssign env₁ ⟨parcelId, bodyA⟩ s).store).reply = some ⟨200, Body.updated 1 n⟩ := by
    rw [patchPickup, hr₂, if_neg (key _ _ _ hds₁ (by decide))]
    exact ⟨_, rfl⟩
  have he₃ : ∃ n, (patchDeliver env₃ ⟨parcelId, bodyD⟩
      (patchPickup env₂ ⟨parcelId, bodyP⟩
        (patchAssign env₁ ⟨parcelId, bodyA⟩ s).store).store).reply =
      some ⟨200, Body.updated 1 n⟩ := by
    rw [patchDeliver, hr₃, if_neg (key _ _ _ hds₂ (by decide))]
    exact ⟨_, rfl⟩
  exact ⟨_, _, _, _, _, _, hc₁, hds₁, Doc.field_setField_self _ _ _, hc₂, he₂, hds₂,
    Doc.field_setField_self _ _ _, hc₃, he₃, Doc.field_setField_self _ _ _,
    Doc.field_setField_self _ _ _⟩

/-- Claim C5 at the pending parcel and the rider of the demo store. -/
theorem lifecycle_scenario_witness :
    Doc.field demoParcel "delivery_status" = some (Value.str "pending") ∧
    ∃ p₁ p₂ p₃ r₁ r₂ r₃,
      Store.ChangesOnly demoStore
        (patchAssign demoEnv ⟨demoParcelId, (demoRiderAction demoParcelId).body⟩ demoStore).store
        1 demoParcel p₁ 2 demoRider r₁ ∧
      Doc.field p₁ "delivery_status" = some (Value.str "in_transit") ∧
      Doc.field r₁ "work_status" = some (Value.str "in_delivery") ∧
      Store.ChangesOnly
        (patchAssign demoEnv ⟨demoParcelId, (demoRiderAction demoParcelId).body⟩ demoStore).store
        (patchPickup demoEnvLater ⟨demoParcelId, [("riderId", Value.str demoRiderId)]⟩
          (patchAssign demoEnv ⟨demoParcelId, (demoRiderAction demoParcelId).body⟩
            demoStore).store).store
        1 p₁ p₂ 2 r₁ r₂ ∧
      (∃ n, (patchPickup demoEnvLater ⟨demoParcelId, [("riderId", Value.str demoRiderId)]⟩
          (patchAssign demoEnv ⟨demoParcelId, (demoRiderAction demoParcelId).body⟩
            demoStore).store).reply =
        some ⟨200, Body.updated 1 n⟩) ∧
      Doc.field p₂ "delivery_status" = some (Value.str "picked_up") ∧
      Doc.field r₂ "work_status" = some (Value.str "busy") ∧
      Store.ChangesOnly
        (patchPickup demoEnvLater ⟨demoParcelId, [("riderId", Value.str demoRiderId)]⟩
          (patchAssign demoEnv ⟨demoParcelId, (demoRiderAction demoParcelId).body⟩
            demoStore).store).store
        (patchDeliver demoEnvLater
          ⟨demoParcelId, [("riderId", Value.str demoRiderId), ("message", Value.str "done")]⟩
          (patchPickup demoEnvLater ⟨demoParcelId, [("riderId", Value.str demoRiderId)]⟩
            (patchAssign demoEnv ⟨demoParcelId, (demoRiderAction demoParcelId).body⟩
              demoStore).store).store).store
        1 p₂ p₃ 2 r₂ r₃ ∧
      (∃ n, (patchDeliver demoEnvLater
          ⟨demoParcelId, [("riderId", Value.str demoRiderId), ("message", Value.str "done")]⟩
          (patchPickup demoEnvLater ⟨demoParcelId, [("riderId", Value.str demoRiderId)]⟩
            (patchAssign demoEnv ⟨demoParcelId, (demoRiderAction demoParcelId).body⟩
              demoStore).store).store).reply =
        some ⟨200, Body.updated 1 n⟩) ∧
      Doc.field p₃ "delivery_status" = some (Value.str "delivered") ∧
      Doc.field r₃ "work_status" = some (Value.str "free") :=
  ⟨by decide,
    lifecycle_scenario demoEnv demoEnvLater demoEnvLater demoParcelId demoRiderId
      (demoRiderAction demoParcelId).body [("riderId", Value.str demoRiderId)]
      [("riderId", Value.str demoRiderId), ("message", Value.str "done")]
      demoStore 1 2 demoParcel demoRider
      (by decide) (by decide) (by decide) (by decide) (by decide) (by decide) (by decide)⟩

/-- Claim C7. Pickup and deliver for a well-formed parcel id that matches no
parcel, with a well-formed (hence non-empty) rider id, do not fail: each
answers 200 with `success: true` and `parcelUpdated = 0`, and the parcel
collection is unchanged. -/
theorem pickup_deliver_missing_parcel (env : Env) (req : Request) (s : Store)
    (riderId : String) (pid rid : Nat)
    (hpid : ObjectId.parse req.param = some pid)
    (hbody : Doc.field req.body "riderId" = some (Value.str riderId))
    (hrid : ObjectId.parse riderId = some rid)
    (hmissing : Coll.findOne (idIs pid) s.parcelCollection = none) :
    ((∃ n, (patchPickup env req s).reply = some ⟨200, Body.updated 0 n⟩) ∧
        (patchPickup env req s).store.parcelCollection = s.parcelCollection) ∧
      ((∃ n, (patchDeliver env req s).reply = some ⟨200, Body.updated 0 n⟩) ∧
        (patchDeliver env req s).store.parcelCollection = s.parcelCollection) := by
  have hstatus : ∀ ds ws : String,
      (∃ n, (patchStatus ds ws env req s).reply = some ⟨200, Body.updated 0 n⟩) ∧
        (patchStatus ds ws env req s).store.parcelCollection = s.parcelCollection := by
    intro ds ws
    rw [patchStatus_valid ds ws env req s riderId pid rid hpid hbody hrid,
      Coll.updateOne_of_findOne_none _ _ _ hmissing]
    exact ⟨⟨_, rfl⟩, rfl⟩
  exact ⟨hstatus _ _, hstatus _ _⟩

/-- Claim C7 at an id no parcel of the demo store has. -/
theorem pickup_deliver_missing_parcel_witness :
    ((∃ n, (patchPickup demoEnv (demoRiderAction demoUnknownId) demoStore).reply =
          some ⟨200, Body.updated 0 n⟩) ∧
        (patchPickup demoEnv (demoRiderAction demoUnknownId) demoStore).store.parcelCollection =
          demoStore.parcelCollection) ∧
      ((∃ n, (patchDeliver demoEnv (demoRiderAction demoUnknownId) demoStore).reply =
          some ⟨200, Body.updated 0 n⟩) ∧
        (patchDeliver demoEnv (demoRiderAction demoUnknownId) demoStore).store.parcelCollection =
          demoStore.parcelCollection) :=
  pickup_deliver_missing_parcel demoEnv (demoRiderAction demoUnknownId) demoStore demoRiderId
    255 2 (by decide) (by decide) (by decide) (by decide)

/-! ## Status aggregation -/

theorem lookupCount_bump (v w : Value) (acc : List (Value × Nat)) :
    lookupCount (bump v acc) w = lookupCount acc w + if v = w then 1 else 0 := by
  induction acc with
  | nil => simp [bump, lookupCount]
  | cons e rest ih =>
    obtain ⟨k, m⟩ := e
    by_cases hk : k = v
    · subst hk
      by_cases hw : k = w
      · simp [bump, lookupCount, hw]
      · simp [bump, lookupCount, hw]
    · by_cases hw : k = w
      · subst hw
        simp [bump, lookupCount, hk, Ne.symm hk]
      · simp [bump, lookupCount, hk, hw, ih]

theorem bump_keys (v : Value) (acc : List (Value × Nat)) :
    (bump v acc).map Prod.fst =
      if v ∈ acc.map Prod.fst then acc.map Prod.fst else acc.map Prod.fst ++ [v] := by
  induction acc with
  | nil => simp [bump]
  | cons e rest ih =>
    obtain ⟨k, m⟩ := e
    by_cases hk : k = v
    · subst hk
      simp [bump]
    · have hvk : ¬ v = k := fun h => hk h.symm
      by_cases hmem : v ∈ rest.map Prod.fst
      · simp only [bump, hk, if_false, List.map_cons, ih, if_pos hmem, List.mem_cons, hmem,
          or_true, if_true]
      · simp only [bump, hk, if_false, List.map_cons, ih, if_neg hmem, List.mem_cons, hmem,
          hvk, or_self, List.cons_append]

theorem bump_keys_nodup (v : Value) (acc : List (Value × Nat))
    (h : (acc.map Prod.fst).Nodup) : ((bump v acc).map Prod.fst).Nodup := by
  rw [bump_keys]
  split_ifs with hmem
  · exact h
  · rw [List.nodup_append]
    refine ⟨h, List.nodup_singleton v, ?_⟩
    intro a ha hb
    rw [List.mem_singleton] at hb
    exact hmem (hb ▸ ha)

theorem bump_pos (v : Value) (acc : List (Value × Nat)) (h : ∀ e ∈ acc, 0 < e.2) :
    ∀ e ∈ bump v acc, 0 < e.2 := by
  induction acc with
  | nil => simp [bump]
  | cons e rest ih =>
    obtain ⟨k, m⟩ := e
    have hrest : ∀ e ∈ rest, 0 < e.2 := fun e he => h e (List.mem_cons_of_mem _ he)
    by_cases hk : k = v
    · intro e he
      simp only [bump, hk, if_true, List.mem_cons] at he
      rcases he with rfl | he
      · exact Nat.succ_pos _
      · exact hrest e he
    · intro e he
      simp only [bump, hk, if_false, List.mem_cons] at he
      rcases he with rfl | he
      · exact h _ (List.mem_cons_self _ _)
      · exact ih hrest e he

theorem mem_iff_lookupCount (acc : List (Value × Nat)) (hnodup : (acc.map Prod.fst).Nodup)
    (hpos : ∀ e ∈ acc, 0 < e.2) (v : Value) (n : Nat) :
    (v, n) ∈ acc ↔ (0 < n ∧ lookupCount acc v = n) := by
  induction acc with
  | nil =>
    simp only [List.not_mem_nil, lookupCount, false_iff, not_and]
    intro h0 h1
    omega
  | cons e rest ih =>
    obtain ⟨k, m⟩ := e
    rw [List.map_cons, List.nodup_cons] at hnodup
    have hm : 0 < m := hpos (k, m) (List.mem_cons_self _ _)
    have ih' := ih hnodup.2 (fun e he => hpos e (List.mem_cons_of_mem _ he))
    by_cases hk : k = v
    · subst hk
      have hnot : (k, n) ∉ rest := fun hmem =>
        hnodup.1 (List.mem_map.mpr ⟨(k, n), hmem, rfl⟩)
      simp only [List.mem_cons, Prod.mk.injEq, true_and, hnot, or_false, lookupCount, if_true]
      constructor
      · rintro rfl
        exact ⟨hm, rfl⟩
      · rintro ⟨-, h⟩
        exact h.symm
    · have hvk : ¬ v = k := fun h => hk h.symm
      simp only [List.mem_cons, Prod.mk.injEq, hvk, false_and, false_or, lookupCount, hk,
        if_false]
      exact ih'

theorem groupCount_fold (field : String) (coll : Coll) (acc : List (Value × Nat))
    (hnodup : (acc.map Prod.fst).Nodup) (hpos : ∀ e ∈ acc, 0 < e.2) :
    ((coll.foldl (fun acc d => bump (orNull (Doc.field d field)) acc) acc).map
        Prod.fst).Nodup ∧
      (∀ e ∈ coll.foldl (fun acc d => bump (orNull (Doc.field d field)) acc) acc, 0 < e.2) ∧
      ∀ v, lookupCount (coll.foldl (fun acc d => bump (orNull (Doc.field d field)) acc) acc) v =
        lookupCount acc v + refCount field coll v := by
  induction coll generalizing acc with
  | nil => exact ⟨hnodup, hpos, fun v => by simp [refCount]⟩
  | cons d rest ih =>
    obtain ⟨h1, h2, h3⟩ := ih (bump (orNull (Doc.field d field)) acc)
      (bump_keys_nodup _ _ hnodup) (bump_pos _ _ hpos)
    refine ⟨h1, h2, fun v => ?_⟩
    rw [List.foldl_cons, h3 v, lookupCount_bump]
    simp only [refCount, List.countP_cons, decide_eq_true_eq]
    omega

/-- The pipeline `$group` + `$project` computes the reference group-count. -/
theorem groupCount_isGroupCount (field : String) (coll : Coll) :
    IsGroupCount field coll (groupCount field coll) := by
  obtain ⟨h1, h2, h3⟩ := groupCount_fold field coll [] (by simp) (by simp)
  refine ⟨h1, fun v n => ?_⟩
  rw [groupCount, mem_iff_lookupCount _ h1 h2, h3 v]
  simp only [lookupCount, Nat.zero_add]
  constructor
  · rintro ⟨hn, h⟩
    exact ⟨hn, h.symm⟩
  · rintro ⟨hn, h⟩
    exact ⟨hn, h.symm⟩

theorem fieldIs_str (k e : String) (d : Doc) :
    fieldIs k (Value.str e) d = decide (Doc.field d k = some (Value.str e)) := by
  simp [fieldIs]

/-- Claim C6. Each of the three aggregators answers 200 with the reference
group-count of the parcels that pass its filter (all parcels; those whose
`created_by` is the email; those whose `assigned_rider_email` is the email),
grouped on `delivery_status`, `payment_status`, `delivery_status`: one entry
per status value present, its count the number of filtered parcels with that
status, never a zero count and never an absent status. A parcel without the
grouped field counts under the status null. -/
theorem status_counts_are_group_counts (req : Request) (s : Store) :
    (∃ res, (getDeliveryStatusCount s).reply = some ⟨200, Body.counts res⟩ ∧
      IsGroupCount "delivery_status" s.parcelCollection res) ∧
    (∃ res, (getPaymentCount req s).reply = some ⟨200, Body.counts res⟩ ∧
      IsGroupCount "payment_status"
        (s.parcelCollection.filter
          (fun d => decide (Doc.field d "created_by" = some (Value.str req.param)))) res) ∧
    (∃ res, (getRiderDeliveryStatusCount req s).reply = some ⟨200, Body.counts res⟩ ∧
      IsGroupCount "delivery_status"
        (s.parcelCollection.filter
          (fun d => decide (Doc.field d "assigned_rider_email" = some (Value.str req.param))))
        res) := by
  refine ⟨⟨_, rfl, groupCount_isGroupCount _ _⟩, ⟨_, rfl, ?_⟩, ⟨_, rfl, ?_⟩⟩
  · have hf : fieldIs "created_by" (Value.str req.param) =
        fun d => decide (Doc.field d "created_by" = some (Value.str req.param)) :=
      funext (fieldIs_str _ _)
    rw [hf]
    exact groupCount_isGroupCount _ _
  · have hf : fieldIs "assigned_rider_email" (Value.str req.param) =
        fun d => decide (Doc.field d "assigned_rider_email" = some (Value.str req.param)) :=
      funext (fieldIs_str _ _)
    rw [hf]
    exact groupCount_isGroupCount _ _

/-! ## Cashout -/

/-- With a convertible id the cashout handler runs its update and answers 200. -/
theorem patchCashout_valid (env : Env) (req : Request) (s : Store) (pid : Nat)
    (hpid : ObjectId.parse req.param = some pid) :
    patchCashout env req s =
      ⟨some ⟨200, Body.update (Coll.updateOne (idIs pid)
          [("cashout_status", Value.str "cashed_out"), ("cashed_out_at", Value.date env.now)]
          s.parcelCollection).2⟩,
        { s with parcelCollection := (Coll.updateOne (idIs pid)
          [("cashout_status", Value.str "cashed_out"), ("cashed_out_at", Value.date env.now)]
          s.parcelCollection).1 }⟩ := by
  simp [patchCashout, ObjectId.new_str_of_parse hpid]

/-- Effect of the cashout handler on an existing parcel. -/
theorem patchCashout_step (env : Env) (req : Request) (s : Store) (pid : Nat) (p : Doc)
    (hpid : ObjectId.parse req.param = some pid)
    (hparcel : Coll.findOne (idIs pid) s.parcelCollection = some p) :
    (patchCashout env req s).reply =
        some ⟨200, Body.update ⟨1,
          if Doc.applySet p [("cashout_status", Value.str "cashed_out"),
            ("cashed_out_at", Value.date env.now)] = p then 0 else 1⟩⟩ ∧
      Coll.ReplacesFirst (idIs pid) p
        (Doc.applySet p [("cashout_status", Value.str "cashed_out"),
          ("cashed_out_at", Value.date env.now)])
        s.parcelCollection (patchCashout env req s).store.parcelCollection ∧
      (patchCashout env req s).store =
        { s with parcelCollection := (patchCashout env req s).store.parcelCollection } := by
  have hp := Coll.findOne_matches hparcel
  obtain ⟨h₁, h₂⟩ := Coll.updateOne_replacesFirst (idIs pid)
    [("cashout_status", Value.str "cashed_out"), ("cashed_out_at", Value.date env.now)]
    s.parcelCollection p hparcel (by simpa [Doc.applySet, idIs_setField] using hp)
  rw [patchCashout_valid env req s pid hpid, h₂]
  exact ⟨rfl, h₁, rfl⟩

/-- Counterexample to claim C8 as stated: two cashouts one second apart leave
different parcel documents, and the second update reports one modified
document. -/
theorem cashout_twice_restamps :
    Coll.findOne (idIs 1)
        (patchCashout demoEnv ⟨demoParcelId, []⟩ demoStore).store.parcelCollection =
      some (demoParcel ++ [("cashout_status", Value.str "cashed_out"),
        ("cashed_out_at", Value.date 1700000000000)]) ∧
    Coll.findOne (idIs 1)
        (patchCashout demoEnvLater ⟨demoParcelId, []⟩
          (patchCashout demoEnv ⟨demoParcelId, []⟩ demoStore).store).store.parcelCollection =
      some (demoParcel ++ [("cashout_status", Value.str "cashed_out"),
        ("cashed_out_at", Value.date 1700000001000)]) ∧
    (patchCashout demoEnvLater ⟨demoParcelId, []⟩
        (patchCashout demoEnv ⟨demoParcelId, []⟩ demoStore).store).reply =
      some ⟨200, Body.update ⟨1, 1⟩⟩ ∧
    decide (Coll.findOne (idIs 1)
        (patchCashout demoEnvLater ⟨demoParcelId, []⟩
          (patchCashout demoEnv ⟨demoParcelId, []⟩ demoStore).store).store.parcelCollection =
      Coll.findOne (idIs 1)
        (patchCashout demoEnv ⟨demoParcelId, []⟩ demoStore).store.parcelCollection) = false := by
  decide

/-- Claim C8, as amended. A second cashout of an existing parcel does not
error: it answers 200 with the update result, and the parcel keeps
`cashout_status = "cashed_out"`. The parcel document after the second call is
the document after the first call with `cashed_out_at` set to the second
call's clock reading, every other field being equal; the second write is a
no-op (modified count 0, same store) exactly when both calls read the same
clock value. -/
theorem cashout_twice (env₁ env₂ : Env) (req : Request) (s : Store) (pid : Nat) (p : Doc)
    (hpid : ObjectId.parse req.param = some pid)
    (hparcel : Coll.findOne (idIs pid) s.parcelCollection = some p) :
    ∃ p₁ p₂ r₂,
      Coll.ReplacesFirst (idIs pid) p p₁ s.parcelCollection
        (patchCashout env₁ req s).store.parcelCollection ∧
      Coll.ReplacesFirst (idIs pid) p₁ p₂ (patchCashout env₁ req s).store.parcelCollection
        (patchCashout env₂ req (patchCashout env₁ req s).store).store.parcelCollection ∧
      (patchCashout env₂ req (patchCashout env₁ req s).store).reply =
        some ⟨200, Body.update r₂⟩ ∧
      r₂.matchedCount = 1 ∧
      Doc.field p₁ "cashout_status" = some (Value.str "cashed_out") ∧
      Doc.field p₂ "cashout_status" = some (Value.str "cashed_out") ∧
      Doc.field p₁ "cashed_out_at" = some (Value.date env₁.now) ∧
      p₂ = Doc.setField p₁ "cashed_out_at" (Value.date env₂.now) ∧
      (∀ k, k ≠ "cashed_out_at" → Doc.field p₂ k = Doc.field p₁ k) ∧
      (r₂.modifiedCount = 0 ↔ env₂.now = env₁.now) ∧
      (env₂.now = env₁.now →
        (patchCashout env₂ req (patchCashout env₁ req s).store).store =
          (patchCashout env₁ req s).store) := by
  have hstatus : ∀ (d : Doc) (t : Nat),
      Doc.field (Doc.applySet d [("cashout_status", Value.str "cashed_out"),
        ("cashed_out_at", Value.date t)]) "cashout_status" = some (Value.str "cashed_out") := by
    intro d t
    simp [Doc.applySet, Doc.field_setField_self, Doc.field_setField_ne]
  have hstamp : ∀ (d : Doc) (t : Nat),
      Doc.field (Doc.applySet d [("cashout_status", Value.str "cashed_out"),
        ("cashed_out_at", Value.date t)]) "cashed_out_at" = some (Value.date t) := by
    intro d t
    simp [Doc.applySet, Doc.field_setField_self]
  obtain ⟨-, h₁, -⟩ := patchCashout_step env₁ req s pid p hpid hparcel
  obtain ⟨hr₂, h₂, hs₂⟩ := patchCashout_step env₂ req (patchCashout env₁ req s).store pid _ hpid
    h₁.findOne_after
  have hsecond : Doc.applySet (Doc.applySet p [("cashout_status", Value.str "cashed_out"),
      ("cashed_out_at", Value.date env₁.now)]) [("cashout_status", Value.str "cashed_out"),
      ("cashed_out_at", Value.date env₂.now)] =
      Doc.setField (Doc.applySet p [("cashout_status", Value.str "cashed_out"),
      ("cashed_out_at", Value.date env₁.now)]) "cashed_out_at" (Value.date env₂.now) := by
    have := (Doc.setField_eq_self_iff _ _ _).mpr (hstatus p env₁.now)
    conv_lhs => rw [Doc.applySet]
    simp only [List.foldl_cons, List.foldl_nil]
    rw [this]
  have hiff : Doc.setField (Doc.applySet p [("cashout_status", Value.str "cashed_out"),
      ("cashed_out_at", Value.date env₁.now)]) "cashed_out_at" (Value.date env₂.now) =
      Doc.applySet p [("cashout_status", Value.str "cashed_out"),
      ("cashed_out_at", Value.date env₁.now)] ↔ env₂.now = env₁.now := by
    rw [Doc.setField_eq_self_iff, hstamp]
    constructor
    · intro h
      simpa using h.symm
    · intro h
      rw [h]
  rw [hsecond] at h₂ hr₂
  refine ⟨_, _, _, h₁, h₂, hr₂, rfl, hstatus p _, ?_, hstamp p _,
    rfl, fun k hk => Doc.field_setField_ne _ _ _ _ hk, ?_, ?_⟩
  · rw [Doc.field_setField_ne _ _ _ _ (by decide)]
    exact hstatus p _
  · simp only
    rw [← hiff]
    split_ifs with h
    · simp [h]
    · simp [h]
  · intro ht
    obtain ⟨pre₂, post₂, hb, ha, -, -, -⟩ := h₂
    rw [hiff.mpr ht, ← hb] at ha
    rw [hs₂, ha]

/-- Claim C8, as amended, at the first parcel of the demo store. -/
theorem cashout_twice_witness :
    ∃ p₁ p₂ r₂,
      Coll.ReplacesFirst (idIs 1) demoParcel p₁ demoStore.parcelCollection
        (patchCashout demoEnv ⟨demoParcelId, []⟩ demoStore).store.parcelCollection ∧
      Coll.ReplacesFirst (idIs 1) p₁ p₂
        (patchCashout demoEnv ⟨demoParcelId, []⟩ demoStore).store.parcelCollection
        (patchCashout demoEnvLater ⟨demoParcelId, []⟩
          (patchCashout demoEnv ⟨demoParcelId, []⟩ demoStore).store).store.parcelCollection ∧
      (patchCashout demoEnvLater ⟨demoParcelId, []⟩
          (patchCashout demoEnv ⟨demoParcelId, []⟩ demoStore).store).reply =
        some ⟨200, Body.update r₂⟩ ∧
      r₂.matchedCount = 1 ∧
      Doc.field p₁ "cashout_status" = some (Value.str "cashed_out") ∧
      Doc.field p₂ "cashout_status" = some (Value.str "cashed_out") ∧
      Doc.field p₁ "cashed_out_at" = some (Value.date demoEnv.now) ∧
      p₂ = Doc.setField p₁ "cashed_out_at" (Value.date demoEnvLater.now) ∧
      (∀ k, k ≠ "cashed_out_at" → Doc.field p₂ k = Doc.field p₁ k) ∧
      (r₂.modifiedCount = 0 ↔ demoEnvLater.now = demoEnv.now) ∧
      (demoEnvLater.now = demoEnv.now →
        (patchCashout demoEnvLater ⟨demoParcelId, []⟩
          (patchCashout demoEnv ⟨demoParcelId, []⟩ demoStore).store).store =
          (patchCashout demoEnv ⟨demoParcelId, []⟩ demoStore).store) :=
  cashout_twice demoEnv demoEnvLater ⟨demoParcelId, []⟩ demoStore 1 demoParcel
    (by decide) (by decide)

/-! ## Identifiers that do not convert -/

/-- Counterexample to claim C9 as stated: get parcel with an identifier that
does not convert answers 500, a server error. -/
theorem getParcel_invalid_id_is_500 :
    ObjectId.parse "not-an-object-id" = none ∧
      getParcel demoEnv ⟨"not-an-object-id", []⟩ demoStore =
        ⟨some ⟨500, Body.message "Failed to fetch payment"⟩, demoStore⟩ := by
  decide

/-- Claim C9, as amended. A request whose parcel identifier, the path
parameter, does not convert to an ObjectId is answered from the handler's
`catch` with status 500 by get parcel, delete parcel and assign, and by pickup
and deliver unless the parcel id or the rider id is empty or missing, in which
case they answer 400; record payment answers 500 to a body whose `parcelId`
is a string that does not convert; in all these cases every store is left
unchanged. A non-empty rider identifier string that does not convert, sent
with a convertible parcel id, is answered with 500 by assign, pickup and
deliver after the parcel update has been carried out: the parcel collection is
the one that update leaves and the other four collections are unchanged. -/
theorem invalid_id_is_server_error (env : Env) (s : Store) (req reqPay reqR : Request)
    (badPay badRider : String) (pid : Nat)
    (hbad : ObjectId.parse req.param = none)
    (hpay : Doc.field reqPay.body "parcelId" = some (Value.str badPay))
    (hbadPay : ObjectId.parse badPay = none)
    (hpid : ObjectId.parse reqR.param = some pid)
    (hrider : Doc.field reqR.body "riderId" = some (Value.str badRider))
    (hne : badRider ≠ "") (hbadR : ObjectId.parse badRider = none) :
    (getParcel env req s = ⟨some ⟨500, Body.message "Failed to fetch payment"⟩, s⟩ ∧
      deleteParcel env req s = ⟨some ⟨500, Body.message "Failed to delete parcel"⟩, s⟩ ∧
      patchAssign env req s = ⟨some ⟨500, Body.failure "Failed to assign rider"⟩, s⟩ ∧
      patchPickup env req s =
        ⟨some (if req.param = "" ∨ truthy (Doc.field req.body "riderId") = false
          then ⟨400, Body.message "ParcelId and RiderId required"⟩
          else ⟨500, Body.message "Failed to deliver parcel"⟩), s⟩ ∧
      patchDeliver env req s =
        ⟨some (if req.param = "" ∨ truthy (Doc.field req.body "riderId") = false
          then ⟨400, Body.message "ParcelId and RiderId required"⟩
          else ⟨500, Body.message "Failed to deliver parcel"⟩), s⟩ ∧
      postPayments env reqPay s =
        ⟨some ⟨500, Body.serverError "Server error while processing payment"
          DriverError.bsonError⟩, s⟩) ∧
    (patchAssign env reqR s =
        ⟨some ⟨500, Body.failure "Failed to assign rider"⟩,
          { s with parcelCollection := (Coll.updateOne (idIs pid)
            [("delivery_status", Value.str "in_transit"),
             ("assigned_rider_id", Value.str badRider),
             ("assigned_rider_name", orNull (Doc.field reqR.body "riderName")),
             ("assigned_rider_email", orNull (Doc.field reqR.body "assigned_rider_email"))]
            s.parcelCollection).1 }⟩ ∧
      patchPickup env reqR s =
        ⟨some ⟨500, Body.message "Failed to deliver parcel"⟩,
          { s with parcelCollection := (Coll.updateOne (idIs pid)
            [("delivery_status", Value.str "picked_up")] s.parcelCollection).1 }⟩ ∧
      patchDeliver env reqR s =
        ⟨some ⟨500, Body.message "Failed to deliver parcel"⟩,
          { s with parcelCollection := (Coll.updateOne (idIs pid)
            [("delivery_status", Value.str "delivered")] s.parcelCollection).1 }⟩) := by
  have hnew : ObjectId.new env.genId (some (Value.str req.param)) =
      .error DriverError.bsonError := ObjectId.new_str_of_parse_none hbad
  have hnewPay : ObjectId.new env.genId (some (Value.str badPay)) =
      .error DriverError.bsonError := ObjectId.new_str_of_parse_none hbadPay
  have hnewP : ObjectId.new env.genId (some (Value.str reqR.param)) = .ok pid :=
    ObjectId.new_str_of_parse hpid
  have hnewR : ObjectId.new env.genId (some (Value.str badRider)) =
      .error DriverError.bsonError := ObjectId.new_str_of_parse_none hbadR
  have hneP := ObjectId.parse_ne_empty hpid
  have hstatus : ∀ ds ws : String, patchStatus ds ws env req s =
      ⟨some (if req.param = "" ∨ truthy (Doc.field req.body "riderId") = false
        then ⟨400, Body.message "ParcelId and RiderId required"⟩
        else ⟨500, Body.message "Failed to deliver parcel"⟩), s⟩ := by
    intro ds ws
    by_cases h : req.param = "" ∨ truthy (Doc.field req.body "riderId") = false
    · rw [if_pos h]
      rcases h with h | h
      · simp [patchStatus, h, truthy_str]
      · simp [patchStatus, h]
    · rw [if_neg h]
      rw [not_or] at h
      have h2 : truthy (Doc.field req.body "riderId") = true := by simpa using h.2
      simp [patchStatus, truthy_str, h.1, h2, hnew]
  have hstatusR : ∀ ds ws : String, patchStatus ds ws env reqR s =
      ⟨some ⟨500, Body.message "Failed to deliver parcel"⟩,
        { s with parcelCollection := (Coll.updateOne (idIs pid)
          [("delivery_status", Value.str ds)] s.parcelCollection).1 }⟩ := by
    intro ds ws
    simp [patchStatus, truthy_str, hneP, hrider, hne, hnewP, hnewR]
  refine ⟨⟨?_, ?_, ?_, hstatus _ _, hstatus _ _, ?_⟩, ?_, hstatusR _ _, hstatusR _ _⟩
  · simp [getParcel, hnew]
  · simp [deleteParcel, hnew]
  · simp [patchAssign, hnew]
  · simp [postPayments, hpay, hnewPay]
  · simp [patchAssign, hrider, hnewP, hnewR]

/-- Claim C9, as amended, at a get-parcel request without a body, a payment
and a pickup whose identifiers do not convert. -/
theorem invalid_id_is_server_error_witness :
    getParcel demoEnv ⟨"not-an-object-id", []⟩ demoStore =
        ⟨some ⟨500, Body.message "Failed to fetch payment"⟩, demoStore⟩ ∧
      postPayments demoEnv (demoPayment "parcel-1") demoStore =
        ⟨some ⟨500, Body.serverError "Server error while processing payment"
          DriverError.bsonError⟩, demoStore⟩ ∧
      patchPickup demoEnv ⟨demoParcelId, [("riderId", Value.str "rider-7")]⟩ demoStore =
        ⟨some ⟨500, Body.message "Failed to deliver parcel"⟩,
          { demoStore with parcelCollection := (Coll.updateOne (idIs 1)
            [("delivery_status", Value.str "picked_up")] demoStore.parcelCollection).1 }⟩ := by
  have h := invalid_id_is_server_error demoEnv demoStore ⟨"not-an-object-id", []⟩
    (demoPayment "parcel-1") ⟨demoParcelId, [("riderId", Value.str "rider-7")]⟩
    "parcel-1" "rider-7" 1
    (by decide) (by decide) (by decide) (by decide) (by decide) (by decide) (by decide)
  exact ⟨h.1.1, h.1.2.2.2.2.2, h.2.2.1⟩

/-- The two handlers that build the ObjectId outside any `try` send no reply
of their own for an identifier that does not convert; the store is untouched. -/
theorem unguarded_handlers_reject (env : Env) (req : Request) (s : Store)
    (hbad : ObjectId.parse req.param = none) :
    patchCashout env req s = ⟨none, s⟩ ∧ patchRiderStatus env req s = ⟨none, s⟩ := by
  have hnew := @ObjectId.new_str_of_parse_none env.genId _ hbad
  constructor
  · simp [patchCashout, hnew]
  · simp [patchRiderStatus, hnew]

/-! ## Tracking history -/

/-- Sorting on a field no document carries keeps the natural order. -/
theorem sortAsc_of_field_absent (key : String) (docs : List Doc)
    (h : ∀ d ∈ docs, Doc.field d key = none) : sortAsc key docs = docs := by
  induction docs with
  | nil => rfl
  | cons x rest ih =>
    have hx : Doc.field x key = none := h x (List.mem_cons_self _ _)
    have hrest : ∀ d ∈ rest, Doc.field d key = none :=
      fun d hd => h d (List.mem_cons_of_mem _ hd)
    rw [sortAsc, ih hrest]
    cases rest with
    | nil => rfl
    | cons y ys =>
      have hy : Doc.field y key = none := hrest y (List.mem_cons_self _ _)
      simp [insertAsc, hx, hy, Value.le, Value.rank]


/-- Claim C10 fails on the code. Two events are appended for "TRK-1", first
"picked_up" and one second later "delivered", whose bodies carry `Timestamp: 2`
and `Timestamp: 1`; both appends answer 201. The history lists "delivered"
before "picked_up": it is sorted on the `Timestamp` property the clients sent,
not on the `timestamp` the server stamped, and so not in append order. -/
theorem getTrackings_sorts_on_client_Timestamp :
    (postTrackings demoEnv (demoTrack "picked_up" 2) demoStore).reply =
        some ⟨201, Body.logged (Value.oid 4097)⟩ ∧
    (postTrackings demoEnvLater (demoTrack "delivered" 1)
        (postTrackings demoEnv (demoTrack "picked_up" 2) demoStore).store).reply =
        some ⟨201, Body.logged (Value.oid 4099)⟩ ∧
    (postTrackings demoEnvLater (demoTrack "delivered" 1)
        (postTrackings demoEnv (demoTrack "picked_up" 2) demoStore).store).store.trackingsCollection =
      [[("_id", Value.oid 4097), ("tracking_id", Value.str "TRK-1"),
        ("status", Value.str "picked_up"), ("Timestamp", Value.num 2),
        ("timestamp", Value.date 1700000000000)],
       [("_id", Value.oid 4099), ("tracking_id", Value.str "TRK-1"),
        ("status", Value.str "delivered"), ("Timestamp", Value.num 1),
        ("timestamp", Value.date 1700000001000)]] ∧
    (getTrackings ⟨"TRK-1", []⟩
        (postTrackings demoEnvLater (demoTrack "delivered" 1)
          (postTrackings demoEnv (demoTrack "picked_up" 2) demoStore).store).store).reply =
      some ⟨200, Body.docs
        [[("_id", Value.oid 4099), ("tracking_id", Value.str "TRK-1"),
          ("status", Value.str "delivered"), ("Timestamp", Value.num 1),
          ("timestamp", Value.date 1700000001000)],
         [("_id", Value.oid 4097), ("tracking_id", Value.str "TRK-1"),
          ("status", Value.str "picked_up"), ("Timestamp", Value.num 2),
          ("timestamp", Value.date 1700000000000)]]⟩ := by
  decide


/-! ## Appending a tracking event -/

/-- What `insertOne` stores and answers: the document with its `_id` in
front, the generated one when the document's own is missing or null; the
insert succeeds exactly when no stored document has that `_id`. -/
theorem Coll.insertOne_cases (fresh : Nat) (doc : Doc) (coll : Coll) :
    ∃ stored key,
      stored = ("_id", key) :: Doc.erase doc "_id" ∧
      (Doc.field doc "_id" = none ∨ Doc.field doc "_id" = some Value.null →
        key = Value.oid fresh) ∧
      (∀ v, Doc.field doc "_id" = some v → v ≠ Value.null → key = v) ∧
      ((∀ x ∈ coll, Doc.field x "_id" ≠ some key) →
        Coll.insertOne fresh doc coll = .ok (coll ++ [stored], key)) ∧
      ((∃ x ∈ coll, Doc.field x "_id" = some key) →
        Coll.insertOne fresh doc coll = .error DriverError.duplicateKey) := by
  have hgen : ∀ key : Value,
      (match Doc.field doc "_id" with
        | none => Value.oid fresh
        | some Value.null => Value.oid fresh
        | some v => v) = key →
      ((∀ x ∈ coll, Doc.field x "_id" ≠ some key) →
        Coll.insertOne fresh doc coll =
          .ok (coll ++ [("_id", key) :: Doc.erase doc "_id"], key)) ∧
      ((∃ x ∈ coll, Doc.field x "_id" = some key) →
        Coll.insertOne fresh doc coll = .error DriverError.duplicateKey) := by
    intro key hkey
    constructor
    · intro hfresh
      have hany : (coll.any fun d => decide (Doc.field d "_id" = some key)) = false := by
        rw [List.any_eq_false]
        intro x hx
        simpa using hfresh x hx
      simp only [Coll.insertOne, hkey, hany]
      simp
    · rintro ⟨x, hx, hxid⟩
      have hany : (coll.any fun d => decide (Doc.field d "_id" = some key)) = true := by
        rw [List.any_eq_true]
        exact ⟨x, hx, by simpa using hxid⟩
      simp only [Coll.insertOne, hkey, hany]
      simp
  cases h : Doc.field doc "_id" with
  | none =>
    obtain ⟨hok, hdup⟩ := hgen (Value.oid fresh) (by rw [h])
    exact ⟨_, Value.oid fresh, rfl, fun _ => rfl, fun v hv => by simp at hv, hok, hdup⟩
  | some v =>
    by_cases hv : v = Value.null
    · subst hv
      obtain ⟨hok, hdup⟩ := hgen (Value.oid fresh) (by rw [h])
      exact ⟨_, Value.oid fresh, rfl, fun _ => rfl,
        fun w hw hne => absurd (Option.some.inj hw).symm hne, hok, hdup⟩
    · obtain ⟨hok, hdup⟩ := hgen v (by rw [h]; cases v <;> first | rfl | exact absurd rfl hv)
      refine ⟨_, v, rfl, ?_, fun w hw _ => Option.some.inj hw, hok, hdup⟩
      rintro (hn | hn)
      · simp at hn
      · exact absurd (Option.some.inj hn) hv

/-- Counterexample to claim C11 as stated. An event whose `tracking_id` is the
number 0, neither missing nor empty, fails validation with 400; and an event
with both fields filled in whose body carries the `_id` of a stored event is
answered 500, not 201, and appends nothing. -/
theorem postTrackings_rejects_zero_and_duplicate :
    postTrackings demoEnv ⟨"", [("tracking_id", Value.num 0), ("status", Value.str "picked_up")]⟩
        demoStore =
      ⟨some ⟨400, Body.message "tracking_id and status are required"⟩, demoStore⟩ ∧
    (postTrackings demoEnv
        ⟨"", [("_id", Value.str "evt-1"), ("tracking_id", Value.str "TRK-1"),
              ("status", Value.str "picked_up")]⟩ demoStore).reply =
      some ⟨201, Body.logged (Value.str "evt-1")⟩ ∧
    postTrackings demoEnvLater
        ⟨"", [("_id", Value.str "evt-1"), ("tracking_id", Value.str "TRK-1"),
              ("status", Value.str "delivered")]⟩
        (postTrackings demoEnv
          ⟨"", [("_id", Value.str "evt-1"), ("tracking_id", Value.str "TRK-1"),
                ("status", Value.str "picked_up")]⟩ demoStore).store =
      ⟨some ⟨500, Body.message "Failed to log tracking"⟩,
        (postTrackings demoEnv
          ⟨"", [("_id", Value.str "evt-1"), ("tracking_id", Value.str "TRK-1"),
                ("status", Value.str "picked_up")]⟩ demoStore).store⟩ := by
  decide

/-- Claim C11, as amended. Append answers 400 exactly when `tracking_id` or
`status` is falsy (missing, null, an empty string, the number 0 or false), and
then leaves the store unchanged. Otherwise the event to store is the request
body with `timestamp` set to the server's clock reading (replacing a
`timestamp` the client sent) and with `_id` the generated identifier when the
body's `_id` is missing or null, else the body's own; its `tracking_id`,
`status` and other properties are the request's. When no stored event has
that `_id`, append answers 201 with it and the collection is the old
collection followed by that one event; when a stored event has it, append
answers 500 and the store is unchanged. -/
theorem postTrackings_append (env : Env) (req : Request) (s : Store) :
    ((postTrackings env req s).reply.map Response.status = some 400 ↔
      (truthy (Doc.field req.body "tracking_id") = false ∨
        truthy (Doc.field req.body "status") = false)) ∧
    ((truthy (Doc.field req.body "tracking_id") = false ∨
        truthy (Doc.field req.body "status") = false) →
      postTrackings env req s =
        ⟨some ⟨400, Body.message "tracking_id and status are required"⟩, s⟩) ∧
    (truthy (Doc.field req.body "tracking_id") = true →
      truthy (Doc.field req.body "status") = true →
      ∃ event key,
        Doc.field event "_id" = some key ∧
        (Doc.field req.body "_id" = none ∨ Doc.field req.body "_id" = some Value.null →
          key = Value.oid env.insertId) ∧
        (∀ v, Doc.field req.body "_id" = some v → v ≠ Value.null → key = v) ∧
        Doc.field event "tracking_id" = Doc.field req.body "tracking_id" ∧
        Doc.field event "status" = Doc.field req.body "status" ∧
        Doc.field event "timestamp" = some (Value.date env.now) ∧
        (∀ k, k ≠ "timestamp" → k ≠ "_id" → Doc.field event k = Doc.field req.body k) ∧
        ((∀ x ∈ s.trackingsCollection, Doc.field x "_id" ≠ some key) →
          postTrackings env req s =
            ⟨some ⟨201, Body.logged key⟩,
              { s with trackingsCollection := s.trackingsCollection ++ [event] }⟩) ∧
        ((∃ x ∈ s.trackingsCollection, Doc.field x "_id" = some key) →
          postTrackings env req s =
            ⟨some ⟨500, Body.message "Failed to log tracking"⟩, s⟩)) := by
  have hreject : (truthy (Doc.field req.body "tracking_id") = false ∨
      truthy (Doc.field req.body "status") = false) →
      postTrackings env req s =
        ⟨some ⟨400, Body.message "tracking_id and status are required"⟩, s⟩ := by
    rintro (h | h)
    · simp [postTrackings, h]
    · simp [postTrackings, h]
  have haccept : truthy (Doc.field req.body "tracking_id") = true →
      truthy (Doc.field req.body "status") = true →
      postTrackings env req s =
        match Coll.insertOne env.insertId
          (Doc.setField req.body "timestamp" (Value.date env.now)) s.trackingsCollection with
        | .error _ => ⟨some ⟨500, Body.message "Failed to log tracking"⟩, s⟩
        | .ok (trackings, insertedId) =>
          ⟨some ⟨201, Body.logged insertedId⟩, { s with trackingsCollection := trackings }⟩ := by
    intro h1 h2
    simp [postTrackings, h1, h2]
  obtain ⟨stored, key, hform, hgen, hown, hok, hdup⟩ := Coll.insertOne_cases env.insertId
    (Doc.setField req.body "timestamp" (Value.date env.now)) s.trackingsCollection
  have hid : Doc.field (Doc.setField req.body "timestamp" (Value.date env.now)) "_id" =
      Doc.field req.body "_id" := Doc.field_setField_ne _ _ _ _ (by decide)
  rw [hid] at hgen hown
  have hkey : Doc.field stored "_id" = some key := by
    rw [hform]
    simp [Doc.field]
  have hstored : ∀ k, k ≠ "_id" → Doc.field stored k =
      Doc.field (Doc.setField req.body "timestamp" (Value.date env.now)) k := by
    intro k hk
    rw [hform]
    simp only [Doc.field, Ne.symm hk, if_false]
    exact Doc.field_erase_ne _ _ _ hk
  refine ⟨?_, hreject, ?_⟩
  · constructor
    · intro h400
      by_contra hnot
      rw [not_or] at hnot
      have h1 : truthy (Doc.field req.body "tracking_id") = true := by simpa using hnot.1
      have h2 : truthy (Doc.field req.body "status") = true := by simpa using hnot.2
      rw [haccept h1 h2] at h400
      by_cases hex : ∃ x ∈ s.trackingsCollection, Doc.field x "_id" = some key
      · rw [hdup hex] at h400
        simp at h400
      · rw [hok (fun x hx hxk => hex ⟨x, hx, hxk⟩)] at h400
        simp at h400
    · intro h
      rw [hreject h]
      rfl
  · intro h1 h2
    refine ⟨stored, key, hkey, hgen, hown, ?_, ?_, ?_, ?_, ?_, ?_⟩
    · rw [hstored _ (by decide)]
      exact Doc.field_setField_ne _ _ _ _ (by decide)
    · rw [hstored _ (by decide)]
      exact Doc.field_setField_ne _ _ _ _ (by decide)
    · rw [hstored _ (by decide)]
      exact Doc.field_setField_self _ _ _
    · intro k hk hk'
      rw [hstored k hk']
      exact Doc.field_setField_ne _ _ _ _ hk
    · intro hfresh
      rw [haccept h1 h2, hok hfresh]
    · intro hex
      rw [haccept h1 h2, hdup hex]

/-- Claim C11, as amended, at an event for "TRK-1" appended to a store without
tracking events. -/
theorem postTrackings_append_witness :
    ∃ event,
      Doc.field event "tracking_id" = some (Value.str "TRK-1") ∧
      Doc.field event "status" = some (Value.str "picked_up") ∧
      Doc.field event "timestamp" = some (Value.date demoEnv.now) ∧
      postTrackings demoEnv (demoTrack "picked_up" 2) demoStore =
        ⟨some ⟨201, Body.logged (Value.oid demoEnv.insertId)⟩,
          { demoStore with trackingsCollection := demoStore.trackingsCollection ++ [event] }⟩ := by
  obtain ⟨event, key, -, hgen, -, htid, hstatus, hstamp, -, hok, -⟩ :=
    (postTrackings_append demoEnv (demoTrack "picked_up" 2) demoStore).2.2
      (by decide) (by decide)
  have hkey : key = Value.oid demoEnv.insertId := hgen (Or.inl (by decide))
  subst hkey
  exact ⟨event, htid, hstatus, hstamp, hok (by decide)⟩

/-! ## Listing payments -/

theorem Value.le_is_total (a b : Value) : Value.le a b = true ∨ Value.le b a = true := by
  cases a <;> cases b <;> simp [Value.le, Value.rank]
  · rename_i x y; cases x <;> cases y <;> simp
  · exact le_total _ _
  · exact le_total _ _
  · exact le_total _ _
  · exact le_total _ _

theorem Value.le_is_trans (a b c : Value) (h : Value.le a b = true) (h' : Value.le b c = true) :
    Value.le a c = true := by
  cases a <;> cases b <;> cases c <;> simp [Value.le, Value.rank] at h h' ⊢
  · rename_i x y z; cases x <;> cases y <;> cases z <;> simp_all
  · exact le_trans h h'
  · exact le_trans h h'
  · exact le_trans h h'
  · exact le_trans h h'

theorem insertDesc_perm (key : String) (x : Doc) (docs : List Doc) :
    (insertDesc key x docs).Perm (x :: docs) := by
  induction docs with
  | nil => exact List.Perm.refl _
  | cons y ys ih =>
    by_cases h : Value.le (orNull (Doc.field y key)) (orNull (Doc.field x key)) = true
    · simp [insertDesc, h]
    · simp only [insertDesc, h]
      exact ((List.Perm.cons y ih).trans (List.Perm.swap x y ys))

theorem sortDesc_perm (key : String) (docs : List Doc) : (sortDesc key docs).Perm docs := by
  induction docs with
  | nil => exact List.Perm.refl _
  | cons x xs ih =>
    exact (insertDesc_perm key x (sortDesc key xs)).trans (List.Perm.cons x ih)

theorem insertDesc_pairwise (key : String) (x : Doc) (docs : List Doc)
    (h : docs.Pairwise (fun a b =>
      Value.le (orNull (Doc.field b key)) (orNull (Doc.field a key)) = true)) :
    (insertDesc key x docs).Pairwise (fun a b =>
      Value.le (orNull (Doc.field b key)) (orNull (Doc.field a key)) = true) := by
  induction docs with
  | nil => simp [insertDesc]
  | cons y ys ih =>
    rw [List.pairwise_cons] at h
    by_cases hyx : Value.le (orNull (Doc.field y key)) (orNull (Doc.field x key)) = true
    · simp only [insertDesc, hyx, if_true]
      refine List.Pairwise.cons ?_ (List.Pairwise.cons h.1 h.2)
      intro z hz
      rcases List.mem_cons.mp hz with rfl | hz
      · exact hyx
      · exact Value.le_is_trans _ _ _ (h.1 z hz) hyx
    · simp only [insertDesc, hyx]
      refine List.Pairwise.cons ?_ (ih h.2)
      intro z hz
      rcases List.mem_cons.mp ((insertDesc_perm key x ys).mem_iff.mp hz) with rfl | hz
      · exact (Value.le_is_total _ _).resolve_right hyx
      · exact h.1 z hz

theorem sortDesc_pairwise (key : String) (docs : List Doc) :
    (sortDesc key docs).Pairwise (fun a b =>
      Value.le (orNull (Doc.field b key)) (orNull (Doc.field a key)) = true) := by
  induction docs with
  | nil => exact List.Pairwise.nil
  | cons x xs ih => exact insertDesc_pairwise key x _ ih

/-- Counterexample to claim C12 as stated. A caller whose token verifies, with
the email ann@example.com, and who sends no filter email is answered 403, not
all payment records; so is the same caller asking for another email. -/
theorem getPayments_without_filter_is_forbidden :
    verifyFBToken demoVerify (some "Bearer token-ann") = .ok ⟨some "ann@example.com"⟩ ∧
    getPayments demoVerify ⟨some "Bearer token-ann", none⟩ demoPaidStore =
      ⟨some ⟨403, Body.message "Forbidden Entry"⟩, demoPaidStore⟩ ∧
    getPayments demoVerify ⟨some "Bearer token-ann", some "bob@example.com"⟩ demoPaidStore =
      ⟨some ⟨403, Body.message "Forbidden Entry"⟩, demoPaidStore⟩ := by
  decide

/-- Claim C12, as amended. For a caller whose token verifies: when the filter
email differs from the token's email (one of them may be missing), the answer
is 403 and no record is returned. When they are equal, the answer is 200 with
a list ordered by `paid_at` descending that holds exactly the payment records
whose `email` is the filter, when a non-empty filter is given, and all payment
records when the filter is absent or empty, which passes the check only for a
token without an email (or with an empty one). -/
theorem getPayments_lists (verifyIdToken : String → Option DecodedToken)
    (req : PaymentsRequest) (s : Store) (decoded : DecodedToken)
    (hauth : verifyFBToken verifyIdToken req.authorization = .ok decoded) :
    (decoded.email ≠ req.email →
      getPayments verifyIdToken req s = ⟨some ⟨403, Body.message "Forbidden Entry"⟩, s⟩) ∧
    (decoded.email = req.email →
      ∃ payments,
        getPayments verifyIdToken req s = ⟨some ⟨200, Body.docs payments⟩, s⟩ ∧
        payments.Pairwise (fun a b =>
          Value.le (orNull (Doc.field b "paid_at")) (orNull (Doc.field a "paid_at")) = true) ∧
        (∀ e, req.email = some e → e ≠ "" →
          payments.Perm (s.paymentsCollection.filter
            (fun d => decide (Doc.field d "email" = some (Value.str e))))) ∧
        (req.email = none ∨ req.email = some "" → payments.Perm s.paymentsCollection)) := by
  constructor
  · intro hne
    simp [getPayments, hauth, hne]
  · intro heq
    refine ⟨sortDesc "paid_at" (s.paymentsCollection.filter (paymentsQuery req.email)), ?_,
      sortDesc_pairwise _ _, ?_, ?_⟩
    · simp [getPayments, hauth, heq]
    · intro e he hne
      have hq : paymentsQuery req.email =
          fun d => decide (Doc.field d "email" = some (Value.str e)) := by
        rw [he]
        simp only [paymentsQuery, hne, if_false]
        exact funext (fieldIs_str _ _)
      rw [hq]
      exact sortDesc_perm _ _
    · intro h
      have hq : paymentsQuery req.email = fun _ => true := by
        rcases h with h | h <;> rw [h] <;> simp [paymentsQuery]
      rw [hq, List.filter_true]
      exact sortDesc_perm _ _

/-- Claim C12, as amended, at a caller who asks for the payments of her own
email. -/
theorem getPayments_lists_witness :
    ∃ payments,
      getPayments demoVerify ⟨some "Bearer token-ann", some "ann@example.com"⟩ demoPaidStore =
        ⟨some ⟨200, Body.docs payments⟩, demoPaidStore⟩ ∧
      payments.Pairwise (fun a b =>
        Value.le (orNull (Doc.field b "paid_at")) (orNull (Doc.field a "paid_at")) = true) ∧
      payments.Perm (demoPaidStore.paymentsCollection.filter
        (fun d => decide (Doc.field d "email" = some (Value.str "ann@example.com")))) := by
  obtain ⟨payments, hreply, hsorted, hfilter, -⟩ :=
    (getPayments_lists demoVerify ⟨some "Bearer token-ann", some "ann@example.com"⟩
      demoPaidStore ⟨some "ann@example.com"⟩ (by decide)).2 rfl
  exact ⟨payments, hreply, hsorted, hfilter "ann@example.com" rfl (by decide)⟩

/-! ## The rider fields of a parcel -/

theorem Coll.mem_updateOne (f : Doc → Bool) (upd : Doc) (coll : Coll) (d' : Doc)
    (h : d' ∈ (Coll.updateOne f upd coll).1) :
    d' ∈ coll ∨ ∃ d ∈ coll, d' = Doc.applySet d upd := by
  induction coll with
  | nil => simp [Coll.updateOne] at h
  | cons x rest ih =>
    by_cases hx : f x = true
    · simp only [Coll.updateOne, hx, if_true, List.mem_cons] at h
      rcases h with rfl | h
      · exact Or.inr ⟨x, List.mem_cons_self _ _, rfl⟩
      · exact Or.inl (List.mem_cons_of_mem _ h)
    · have hmem : d' ∈ x :: (Coll.updateOne f upd rest).1 := by
        simpa [Coll.updateOne, hx] using h
      rcases List.mem_cons.mp hmem with rfl | h
      · exact Or.inl (List.mem_cons_self _ _)
      · rcases ih h with hmem | ⟨d, hd, hd'⟩
        · exact Or.inl (List.mem_cons_of_mem _ hmem)
        · exact Or.inr ⟨d, List.mem_cons_of_mem _ hd, hd'⟩

theorem Coll.mem_deleteOne (f : Doc → Bool) (coll : Coll) (d : Doc)
    (h : d ∈ (Coll.deleteOne f coll).1) : d ∈ coll := by
  induction coll with
  | nil => simp [Coll.deleteOne] at h
  | cons x rest ih =>
    by_cases hx : f x = true
    · simp only [Coll.deleteOne, hx, if_true] at h
      exact List.mem_cons_of_mem _ h
    · have hmem : d ∈ x :: (Coll.deleteOne f rest).1 := by
        simpa [Coll.deleteOne, hx] using h
      rcases List.mem_cons.mp hmem with rfl | h
      · exact List.mem_cons_self _ _
      · exact List.mem_cons_of_mem _ (ih h)

theorem riderFieldsTogether_congr (d d' : Doc)
    (h1 : Doc.field d' "assigned_rider_id" = Doc.field d "assigned_rider_id")
    (h2 : Doc.field d' "assigned_rider_name" = Doc.field d "assigned_rider_name")
    (h3 : Doc.field d' "assigned_rider_email" = Doc.field d "assigned_rider_email") :
    riderFieldsTogether d' = riderFieldsTogether d := by
  simp only [riderFieldsTogether, h1, h2, h3]

theorem riderFieldsTogether_setField (d : Doc) (k : String) (v : Value)
    (h1 : k ≠ "assigned_rider_id") (h2 : k ≠ "assigned_rider_name")
    (h3 : k ≠ "assigned_rider_email") :
    riderFieldsTogether (Doc.setField d k v) = riderFieldsTogether d :=
  riderFieldsTogether_congr _ _ (Doc.field_setField_ne _ _ _ _ (Ne.symm h1))
    (Doc.field_setField_ne _ _ _ _ (Ne.symm h2)) (Doc.field_setField_ne _ _ _ _ (Ne.symm h3))

/-- Storing an omitted property as null keeps it unset. -/
theorem isSet_orNull (v : Option Value) : isSet (some (orNull v)) = isSet v := by
  cases v with
  | none => rfl
  | some w => rfl

/-- After the `$set` of assign, the parcel's rider fields are together
exactly when the three properties of the request body are. -/
theorem riderFieldsTogether_assign (d : Doc) (body : Doc) :
    riderFieldsTogether (Doc.applySet d
      [("delivery_status", Value.str "in_transit"),
       ("assigned_rider_id", orNull (Doc.field body "riderId")),
       ("assigned_rider_name", orNull (Doc.field body "riderName")),
       ("assigned_rider_email", orNull (Doc.field body "assigned_rider_email"))]) =
      assignBodyTogether body := by
  have h1 : Doc.field (Doc.applySet d
      [("delivery_status", Value.str "in_transit"),
       ("assigned_rider_id", orNull (Doc.field body "riderId")),
       ("assigned_rider_name", orNull (Doc.field body "riderName")),
       ("assigned_rider_email", orNull (Doc.field body "assigned_rider_email"))])
      "assigned_rider_id" = some (orNull (Doc.field body "riderId")) := by
    simp [Doc.applySet, Doc.field_setField_self, Doc.field_setField_ne]
  have h2 : Doc.field (Doc.applySet d
      [("delivery_status", Value.str "in_transit"),
       ("assigned_rider_id", orNull (Doc.field body "riderId")),
       ("assigned_rider_name", orNull (Doc.field body "riderName")),
       ("assigned_rider_email", orNull (Doc.field body "assigned_rider_email"))])
      "assigned_rider_name" = some (orNull (Doc.field body "riderName")) := by
    simp [Doc.applySet, Doc.field_setField_self, Doc.field_setField_ne]
  have h3 : Doc.field (Doc.applySet d
      [("delivery_status", Value.str "in_transit"),
       ("assigned_rider_id", orNull (Doc.field body "riderId")),
       ("assigned_rider_name", orNull (Doc.field body "riderName")),
       ("assigned_rider_email", orNull (Doc.field body "assigned_rider_email"))])
      "assigned_rider_email" = some (orNull (Doc.field body "assigned_rider_email")) := by
    simp [Doc.applySet, Doc.field_setField_self]
  simp only [riderFieldsTogether, assignBodyTogether, together, h1, h2, h3, isSet_orNull]

/-- The parcel collection a lifecycle operation leaves is the one it found, or
that one after a single `updateOne` whose `$set` keeps the three rider fields
together, provided an assign body has its three rider properties together. -/
theorem LifecycleOp.run_keeps_riderFields (op : LifecycleOp) (env : Env) (req : Request)
    (s : Store) (hassign : op = LifecycleOp.assign → assignBodyTogether req.body = true) :
    (op.run env req s).store.parcelCollection = s.parcelCollection ∨
      ∃ pid upd, (op.run env req s).store.parcelCollection =
          (Coll.updateOne (idIs pid) upd s.parcelCollection).1 ∧
        ∀ d, riderFieldsTogether d = true → riderFieldsTogether (Doc.applySet d upd) = true := by
  cases op
  · -- assign writes the three fields at once
    simp only [LifecycleOp.run, patchAssign]
    split
    · left; rfl
    · rename_i pid _
      right
      refine ⟨pid, [("delivery_status", Value.str "in_transit"),
        ("assigned_rider_id", orNull (Doc.field req.body "riderId")),
        ("assigned_rider_name", orNull (Doc.field req.body "riderName")),
        ("assigned_rider_email", orNull (Doc.field req.body "assigned_rider_email"))], ?_, ?_⟩
      · split <;> rfl
      · intro d _
        rw [riderFieldsTogether_assign]
        exact hassign rfl
  · -- pickup
    simp only [LifecycleOp.run, patchPickup, patchStatus]
    split
    · left; rfl
    · split
      · left; rfl
      · rename_i pid _
        right
        refine ⟨pid, [("delivery_status", Value.str "picked_up")], ?_, ?_⟩
        · split <;> rfl
        · intro d hd
          simpa [Doc.applySet, riderFieldsTogether_setField] using hd
  · -- deliver
    simp only [LifecycleOp.run, patchDeliver, patchStatus]
    split
    · left; rfl
    · split
      · left; rfl
      · rename_i pid _
        right
        refine ⟨pid, [("delivery_status", Value.str "delivered")], ?_, ?_⟩
        · split <;> rfl
        · intro d hd
          simpa [Doc.applySet, riderFieldsTogether_setField] using hd
  · -- cashout
    simp only [LifecycleOp.run, patchCashout]
    split
    · left; rfl
    · rename_i pid _
      right
      refine ⟨pid, [("cashout_status", Value.str "cashed_out"),
        ("cashed_out_at", Value.date env.now)], rfl, ?_⟩
      intro d hd
      simpa [Doc.applySet, riderFieldsTogether_setField] using hd
  · -- record payment
    simp only [LifecycleOp.run, postPayments]
    split
    · left; rfl
    · rename_i pid _
      right
      refine ⟨pid, [("payment_status", Value.str "paid")], ?_, ?_⟩
      · split
        · rfl
        · split <;> rfl
      · intro d hd
        simpa [Doc.applySet, riderFieldsTogether_setField] using hd

/-- An operation keeps the rider fields of every parcel together, provided a
created parcel's body has them together and an assign body has its three
rider properties together. -/
theorem ParcelOp.run_preserves_riderFields (op : ParcelOp) (env : Env) (req : Request)
    (s : Store) (hallowed : suppliesTogether op req)
    (hinv : ∀ d ∈ s.parcelCollection, riderFieldsTogether d = true) :
    ∀ d ∈ (op.run env req s).store.parcelCollection, riderFieldsTogether d = true := by
  cases op with
  | create =>
    obtain ⟨stored, key, hform, -, -, hok, hdup⟩ :=
      Coll.insertOne_cases env.insertId req.body s.parcelCollection
    have hfield : ∀ k, k ≠ "_id" → Doc.field stored k = Doc.field req.body k := by
      intro k hk
      rw [hform]
      simp only [Doc.field, Ne.symm hk, if_false]
      exact Doc.field_erase_ne _ _ _ hk
    have hstored : riderFieldsTogether stored = true := by
      rw [← hallowed.1 rfl]
      exact riderFieldsTogether_congr _ _ (hfield _ (by decide)) (hfield _ (by decide))
        (hfield _ (by decide))
    by_cases hex : ∃ x ∈ s.parcelCollection, Doc.field x "_id" = some key
    · simp only [ParcelOp.run, postParcels, hdup hex]
      exact hinv
    · simp only [ParcelOp.run, postParcels, hok (fun x hx hxk => hex ⟨x, hx, hxk⟩)]
      intro d hd
      rcases List.mem_append.mp hd with hd | hd
      · exact hinv d hd
      · rw [List.mem_singleton.mp hd]
        exact hstored
  | delete =>
    simp only [ParcelOp.run, deleteParcel]
    split
    · exact hinv
    · intro d hd
      exact hinv d (Coll.mem_deleteOne _ _ _ hd)
  | lifecycle op =>
    simp only [ParcelOp.run]
    rcases LifecycleOp.run_keeps_riderFields op env req s
      (fun h => hallowed.2 (by rw [h])) with h | ⟨pid, upd, h, hupd⟩
    · rw [h]
      exact hinv
    · rw [h]
      intro d hd
      rcases Coll.mem_updateOne _ _ _ _ hd with hmem | ⟨x, hx, rfl⟩
      · exact hinv d hmem
      · exact hupd x (hinv x hx)

/-- Counterexample to claim C13 as stated. From the empty store, one create
request whose body carries `assigned_rider_id` alone leaves a parcel with the
rider id set and the rider name and email unset. So does a create request
without rider fields followed by an assign request that names the rider id
only: the parcel is left with the id set and null for name and email. -/
theorem half_assigned_parcels_are_reachable :
    (Reachable anyRequest
        (ParcelOp.run ParcelOp.create demoEnv demoHalfAssigned emptyStore).store ∧
      (ParcelOp.run ParcelOp.create demoEnv demoHalfAssigned emptyStore).store.parcelCollection =
        [[("_id", Value.oid 4097), ("created_by", Value.str "ann@example.com"),
          ("delivery_status", Value.str "pending"),
          ("assigned_rider_id", Value.str demoRiderId)]] ∧
      riderFieldsTogether
        [("_id", Value.oid 4097), ("created_by", Value.str "ann@example.com"),
          ("delivery_status", Value.str "pending"),
          ("assigned_rider_id", Value.str demoRiderId)] = false) ∧
    (Reachable anyRequest
        (ParcelOp.run (ParcelOp.lifecycle LifecycleOp.assign) demoEnvLater
          ⟨"000000000000000000001001", [("riderId", Value.str demoRiderId)]⟩
          (ParcelOp.run ParcelOp.create demoEnv demoNewParcel emptyStore).store).store ∧
      (ParcelOp.run (ParcelOp.lifecycle LifecycleOp.assign) demoEnvLater
          ⟨"000000000000000000001001", [("riderId", Value.str demoRiderId)]⟩
          (ParcelOp.run ParcelOp.create demoEnv demoNewParcel
            emptyStore).store).store.parcelCollection =
        [[("_id", Value.oid 4097), ("created_by", Value.str "ann@example.com"),
          ("delivery_status", Value.str "in_transit"), ("payment_status", Value.str "unpaid"),
          ("assigned_rider_id", Value.str demoRiderId),
          ("assigned_rider_name", Value.null), ("assigned_rider_email", Value.null)]] ∧
      riderFieldsTogether
        [("_id", Value.oid 4097), ("created_by", Value.str "ann@example.com"),
          ("delivery_status", Value.str "in_transit"), ("payment_status", Value.str "unpaid"),
          ("assigned_rider_id", Value.str demoRiderId),
          ("assigned_rider_name", Value.null), ("assigned_rider_email", Value.null)] = false) :=
  ⟨⟨Reachable.step _ _ _ _ Reachable.empty trivial, by decide, by decide⟩,
    ⟨Reachable.step _ _ _ _ (Reachable.step _ _ _ _ Reachable.empty trivial) trivial,
      by decide, by decide⟩⟩

/-- Claim C13, as amended. A field is set when it is present and not null.
In every store reachable from the empty store through create parcel, assign,
pickup, deliver, cashout, record payment and delete with any environment and
any request, as long as every create body has the three `assigned_rider_*`
fields all set or all unset and every assign body has `riderId`, `riderName`
and `assigned_rider_email` all set or all unset, every parcel has its three
`assigned_rider_*` fields all unset or all set together: assign writes the
three at once from its body, and no other operation writes any of them. -/
theorem riderFields_together_of_reachable (s : Store) (h : Reachable suppliesTogether s) :
    ∀ d ∈ s.parcelCollection, riderFieldsTogether d = true := by
  induction h with
  | empty => simp [emptyStore]
  | step op env req s _ hallowed ih =>
    exact ParcelOp.run_preserves_riderFields op env req s hallowed ih

/-- Claim C13, as amended, at the store reached by creating a parcel without
rider fields and assigning it a rider by id, name and email. -/
theorem riderFields_together_of_reachable_witness :
    (ParcelOp.run (ParcelOp.lifecycle LifecycleOp.assign) demoEnvLater
        (demoRiderAction "000000000000000000001001")
        (ParcelOp.run ParcelOp.create demoEnv demoNewParcel emptyStore).store).store.parcelCollection =
      [[("_id", Value.oid 4097), ("created_by", Value.str "ann@example.com"),
        ("delivery_status", Value.str "in_transit"), ("payment_status", Value.str "unpaid"),
        ("assigned_rider_id", Value.str demoRiderId),
        ("assigned_rider_name", Value.str "Rafi"),
        ("assigned_rider_email", Value.str "rafi@example.com")]] ∧
    ∀ d ∈ (ParcelOp.run (ParcelOp.lifecycle LifecycleOp.assign) demoEnvLater
        (demoRiderAction "000000000000000000001001")
        (ParcelOp.run ParcelOp.create demoEnv demoNewParcel emptyStore).store).store.parcelCollection,
      riderFieldsTogether d = true :=
  ⟨by decide,
    riderFields_together_of_reachable _
      (Reachable.step _ _ _ _
        (Reachable.step ParcelOp.create demoEnv demoNewParcel emptyStore Reachable.empty
          ⟨fun _ => (by decide), fun hop => (by cases hop)⟩)
        ⟨fun hop => (by cases hop), fun _ => (by decide)⟩)⟩

end ZapShift
